import Mathlib

/-!
# bonsaiRenderer: ingestion, live polling and format fallback

A shallow embedding of `tools/bonsaiRenderer/main.cpp`:

* `fetchSharedData` (live shared-memory poll),
* `readBonsai` (generic multi-species reader),
* `readJamieSPH` (legacy single-species reader),
* the option validation and reader fallback of `main` (`mainLoad`),
* one iteration of the polling loop of `main` (`pollIteration`).

Conventions of the embedding.

* Machine floating point is kept abstract: `R` is any type with the operations
  the source uses (`Scalar R`).  The properties below concern which value is
  moved where, not rounding.
* `assert` is compiled in (no `NDEBUG`): a failing assertion halts the process.
* Element counts are natural numbers; they are assumed to fit the `int` /
  `size_t` variables that hold them in the source.
* `rank`, `nranks`, `comm` only feed diagnostics (`fprintf`, the `MPI_Allreduce`
  of the local counts) and are left out.
* Calls into code outside this file (locks, dataset reads, the normalisation
  methods of `RendererData`, `MPI_Finalize`) are recorded in an event log.
-/

namespace Bonsai

/-! ## Scalars -/

/-- The scalar type of the source (`float`, `double`): zero, sum, product,
`std::sqrt`, the comparisons `==` and `<`. -/
class Scalar (R : Type) extends Zero R, Add R, Mul R, LT R where
  sqrt : R → R
  decEq : DecidableEq R
  decLt : ∀ a b : R, Decidable (a < b)

instance instDecidableEqScalar {R : Type} [Scalar R] : DecidableEq R := Scalar.decEq

instance instDecidableLtScalar {R : Type} [Scalar R] (a b : R) : Decidable (a < b) :=
  Scalar.decLt a b

/-- The expression `std::sqrt(vx*vx + vy*vy + vz*vz)` of the three readers. -/
def vnorm {R : Type} [Scalar R] (vx vy vz : R) : R :=
  Scalar.sqrt (vx * vx + vy * vy + vz * vz)

/-! ## Data model -/

/-- Modelled from the spec: `IDType` (IDType.h is not among the sources), the
"combined id+species code"; the source observes it only through `getID()` and
`getType()`, which are its two fields here. -/
structure IDType where
  getID : Nat
  getType : Nat
  deriving DecidableEq, Repr

/-- The attribute channels `RendererData::MASS`, `VEL`, `RHO`, `H`. -/
inductive Attribute_t where
  | MASS | VEL | RHO | H
  deriving DecidableEq, Repr

/-- Modelled from the spec: one index of the parallel arrays of `RendererData`
(RendererData.h is not among the sources): position, identifier, species and
the attribute channels.  Keeping one record per index builds in the invariant
that every channel array has the same length. -/
structure particle_t (R : Type) where
  posx : R
  posy : R
  posz : R
  ID : Nat
  type : Nat
  mass : R
  vel : R
  rho : R
  h : R
  deriving DecidableEq, Repr

/-- Modelled from the spec: `RendererData`, the ParticleSet: the channel arrays
and the "new data available" flag. -/
structure RendererData (R : Type) where
  data : List (particle_t R)
  new_data : Bool
  deriving DecidableEq, Repr

/-- Modelled from the spec: the object built by `new T(rank, nranks, comm)`: no
particles, flag down (`fetchSharedData` asserts the flag is down on the object
`main` has just built). -/
def RendererData.fresh (R : Type) : RendererData R :=
  { data := [], new_data := false }

/-- Modelled from the spec: `resize(n)` "reallocates all channel arrays to
length n; content undefined until populated".  The undefined content is the
arbitrary function `junk`; every statement below holds for all `junk`. -/
def RendererData.resize {R : Type} (junk : Nat → particle_t R) (n : Nat)
    (d : RendererData R) : RendererData R :=
  { d with data := (List.range n).map junk }

/-- Modelled from the spec: `n()`, the common length of the channel arrays. -/
def RendererData.n {R : Type} (d : RendererData R) : Nat := d.data.length

/-- Modelled from the spec: `isNewData()`. -/
def RendererData.isNewData {R : Type} (d : RendererData R) : Bool := d.new_data

/-- Apply `f` to element `i` of a list; `none` when `i` is out of range. -/
def modifyAt {α : Type} (f : α → α) : Nat → List α → Option (List α)
  | _, [] => none
  | 0, x :: xs => some (f x :: xs)
  | i + 1, x :: xs => (modifyAt f i xs).map (fun ys => x :: ys)

/-- Modelled from the spec: a group of consecutive assignments through the
accessors `posx(ip)`, `ID(ip)`, `type(ip)`, `attribute(a, ip)` at one index
`ip`; `none` when `ip` is outside the arrays. -/
def RendererData.store {R : Type} (ip : Nat) (f : particle_t R → particle_t R)
    (d : RendererData R) : Option (RendererData R) :=
  (modifyAt f ip d.data).map (fun l => { d with data := l })

/-! ## Halting executions with an event log -/

/-- The datasets the readers ask a snapshot file for. -/
inductive Dataset where
  /-- Name in the file: "Stars:IDType". -/
  | StarsIDType
  /-- Name in the file: "Stars:POS:real4". -/
  | StarsPOS
  /-- Name in the file: "Stars:VEL:float[3]". -/
  | StarsVEL
  /-- Name in the file: "Stars:RHOH:float[2]". -/
  | StarsRHOH
  /-- Name in the file: "DM:IDType". -/
  | DMIDType
  /-- Name in the file: "DM:POS:real4". -/
  | DMPOS
  /-- Name in the file: "DM:VEL:float[3]". -/
  | DMVEL
  /-- Name in the file: "DM:RHOH:float[2]". -/
  | DMRHOH
  /-- Name in the file: "SPH:header:jamieHeader_t". -/
  | SPHheader
  /-- Name in the file: "SPH:data:jamieData_t". -/
  | SPHdata
  deriving DecidableEq, Repr

/-- Calls into code outside main.cpp, in the order they are made. -/
inductive Event where
  /-- Call `header.acquireLock(1.0f)`. -/
  | acquireLockHeader
  /-- Call `header.releaseLock()`. -/
  | releaseLockHeader
  /-- Call `data.acquireLock(1.0f)`. -/
  | acquireLockData
  /-- Call `data.releaseLock()`. -/
  | releaseLockData
  /-- Call `out.read(dataset, true, reduce)`. -/
  | read (d : Dataset) (reduce : Int)
  /-- Call `readBonsai(rank, nranks, comm, fileName, reduceDM, reduceS)`. -/
  | readBonsai (fileName : String) (reduceDM reduceS : Int)
  /-- Call `readJamieSPH(rank, nranks, comm, fileName, reduceS, true)`. -/
  | readJamieSPH (fileName : String) (reduceS : Int)
  /-- Call `opt.printUsage()`. -/
  | printUsage
  /-- Call `MPI_Finalize()`. -/
  | MPI_Finalize
  /-- Call `randomShuffle()`. -/
  | randomShuffle
  /-- Call `computeMinMax()`. -/
  | computeMinMax
  /-- Call `clampMinMax(a, lo, hi)`. -/
  | clampMinMax (a : Attribute_t) (lo hi : ℚ)
  /-- Call `rescaleLinear(a, lo, hi)`. -/
  | rescaleLinear (a : Attribute_t) (lo hi : ℚ)
  /-- Call `scaleLog(a)`. -/
  | scaleLog (a : Attribute_t)
  /-- Call `setNewData()`. -/
  | setNewData
  deriving DecidableEq, Repr

/-- Why an execution stopped before returning. -/
inductive Halt where
  /-- An `assert` failed: the process aborts. -/
  | assertFailed
  /-- An index outside an array was used (undefined behaviour in C++). -/
  | outOfBounds
  /-- The call `exit(status)`. -/
  | exit (status : Int)
  deriving DecidableEq, Repr

/-- Outcome of running a piece of code from a state: it returns a value in a
final state, or it halts in the state reached. -/
inductive Result (σ α : Type) where
  | ok (a : α) (s : σ)
  | halt (why : Halt) (s : σ)
  deriving DecidableEq, Repr

/-- Code over a state `σ` returning `α`. -/
def Exec (σ α : Type) : Type := σ → Result σ α

/-- Return `a` without touching the state. -/
def Exec.pure {σ α : Type} (a : α) : Exec σ α := fun s => Result.ok a s

/-- Sequencing: a halt in `x` ends the execution. -/
def Exec.bind {σ α β : Type} (x : Exec σ α) (f : α → Exec σ β) : Exec σ β :=
  fun s =>
    match x s with
    | Result.ok a s1 => f a s1
    | Result.halt why s1 => Result.halt why s1

instance instMonadExec {σ : Type} : Monad (Exec σ) where
  pure := Exec.pure
  bind := Exec.bind

/-- Stop the execution. -/
def Exec.halt {σ α : Type} (why : Halt) : Exec σ α := fun s => Result.halt why s

/-- The statement `assert(c)`. -/
def Exec.assert {σ : Type} (c : Bool) : Exec σ Unit :=
  if c then Exec.pure () else Exec.halt Halt.assertFailed

/-- Read the state. -/
def Exec.get {σ : Type} : Exec σ σ := fun s => Result.ok s s

/-- Update the state. -/
def Exec.modify {σ : Type} (f : σ → σ) : Exec σ Unit := fun s => Result.ok () (f s)

/-- An indexed access `xs[i]`: outside the array the execution is undefined. -/
def Exec.index {σ α : Type} (xs : List α) (i : Nat) : Exec σ α :=
  match xs.get? i with
  | some x => Exec.pure x
  | none => Exec.halt Halt.outOfBounds

/-- The loop `for (int i = start; i < start + n; i++) body(i)`. -/
def Exec.forLoop {σ : Type} (body : Nat → Exec σ Unit) : (n : Nat) → (start : Nat) → Exec σ Unit
  | 0, _ => Exec.pure ()
  | n + 1, i => Exec.bind (body i) (fun _ => Exec.forLoop body n (i + 1))

/-! ## Program state -/

/-- The mutable state the embedded code works on: the object `*rDataPtr`, the
function-static `tLast` of `fetchSharedData`, and the log of outside calls. -/
structure ProgState (R : Type) where
  rData : RendererData R
  tLast : R
  log : List Event
  deriving DecidableEq, Repr

/-- Record a call to outside code. -/
def emit {R : Type} (e : Event) : Exec (ProgState R) Unit :=
  Exec.modify (fun s => { s with log := s.log ++ [e] })

/-- Assignments through the accessors of `rData` at index `ip` (see
`RendererData.store`); an index outside the arrays is undefined behaviour. -/
def store {R : Type} (ip : Nat) (f : particle_t R → particle_t R) : Exec (ProgState R) Unit :=
  fun s =>
    match s.rData.store ip f with
    | some d => Result.ok () { s with rData := d }
    | none => Result.halt Halt.outOfBounds s

/-- The read access `rData.type(ip)`. -/
def typeAt {R : Type} (ip : Nat) : Exec (ProgState R) Nat :=
  fun s =>
    match s.rData.data.get? ip with
    | some p => Result.ok p.type s
    | none => Result.halt Halt.outOfBounds s

/-! ## Live mode: `fetchSharedData` -/

/-- Modelled from the spec: the Header slot of the shared region
(BonsaiSharedData.h is not among the sources): simulation time and declared
body count. -/
structure BonsaiSharedQuickHeader (R : Type) where
  tCurrent : R
  nBodies : Nat
  deriving DecidableEq, Repr

/-- Modelled from the spec: one record of the Data slot: position, velocity,
density, smoothing length, packed identifier and species. -/
structure BonsaiSharedQuickData (R : Type) where
  x : R
  y : R
  z : R
  vx : R
  vy : R
  vz : R
  rho : R
  h : R
  ID : IDType
  deriving DecidableEq, Repr

/-- The second loop of `fetchSharedData` (lines 68-97),
`for (size_t i = 0, ip = 0; i < size; i++, ip++)`, from entry `data[i]` on,
the list being `data[i], data[i+1], ...`.  `continue` jumps to the increment
`i++, ip++`, so `ip` advances on skipped entries as well.  The counters `nDM`
and `nS` are never read and are left out. -/
def fetchLoop {R : Type} [Scalar R] :
    List (BonsaiSharedQuickData R) → Nat → Exec (ProgState R) Unit
  | [], _ => Exec.pure ()
  | e :: rest, ip =>
    if e.rho = 0 then
      fetchLoop rest (ip + 1)
    else
      Exec.bind (store ip (fun p =>
        { p with posx := e.x, posy := e.y, posz := e.z,
                 ID := e.ID.getID, type := e.ID.getType })) fun _ =>
      Exec.bind (typeAt ip) fun t =>
      Exec.bind (Exec.assert (t == 0 || t == 1)) fun _ =>
      Exec.bind (store ip (fun p =>
        { p with vel := vnorm e.vx e.vy e.vz, rho := e.rho, h := e.h })) fun _ =>
      fetchLoop rest (ip + 1)

/-- The function `fetchSharedData` (lines 41-102); `header` is `header[0]` and
`data` the Data slot as they stand during the call. -/
def fetchSharedData {R : Type} [Scalar R] (junk : Nat → particle_t R)
    (header : BonsaiSharedQuickHeader R) (data : List (BonsaiSharedQuickData R)) :
    Exec (ProgState R) Unit := do
  let s ← Exec.get
  Exec.assert (!s.rData.isNewData)
  emit Event.acquireLockHeader
  let tCurrent := header.tCurrent
  if tCurrent ≠ s.tLast then
    Exec.modify (fun s => { s with tLast := tCurrent })
    let nBodies := header.nBodies
    emit Event.acquireLockData
    let size := data.length
    Exec.assert (size == nBodies)
    let nskip := data.countP (fun e => e.rho = 0)
    Exec.modify (fun s => { s with rData := s.rData.resize junk (size - nskip) })
    fetchLoop data 0
    emit Event.releaseLockData
  emit Event.releaseLockHeader

/-! ## Snapshot files -/

/-- The element type `float4` (`typedef float float4[4]`). -/
structure float4 (R : Type) where
  c0 : R
  c1 : R
  c2 : R
  c3 : R
  deriving DecidableEq, Repr

/-- The element type `float3` (`typedef float float3[3]`). -/
structure float3 (R : Type) where
  c0 : R
  c1 : R
  c2 : R
  deriving DecidableEq, Repr

/-- The element type `float2` (`typedef float float2[2]`). -/
structure float2 (R : Type) where
  c0 : R
  c1 : R
  deriving DecidableEq, Repr

/-- The packed record `header_t` of `readJamieSPH`. -/
structure header_t (R : Type) where
  ntot : Int
  nnopt : Int
  hmin : R
  hmax : R
  sep0 : R
  tf : R
  dtout : R
  nout : Int
  nit : Int
  t : R
  anv : Int
  alpha : R
  beta : R
  tskip : R
  ngr : Int
  nrelax : Int
  trelax : R
  dt : R
  omega2 : R
  deriving DecidableEq, Repr

/-- The packed record `sph_t` of `readJamieSPH`. -/
structure sph_t (R : Type) where
  x : R
  y : R
  z : R
  am : R
  hp : R
  rho : R
  vx : R
  vy : R
  vz : R
  vxdot : R
  vydot : R
  vzdot : R
  u : R
  udot : R
  grpot : R
  mmu : R
  cc : Int
  divv : R
  deriving DecidableEq, Repr

/-- Modelled from the spec: a snapshot file as seen through `BonsaiIO::Core`
(the codec library is not among the sources): "a named collection of typed
datasets"; a dataset the file lacks is `none`. -/
structure BonsaiFile (R : Type) where
  StarsIDType : Option (List IDType)
  StarsPOS : Option (List (float4 R))
  StarsVEL : Option (List (float3 R))
  StarsRHOH : Option (List (float2 R))
  DMIDType : Option (List IDType)
  DMPOS : Option (List (float4 R))
  DMVEL : Option (List (float3 R))
  DMRHOH : Option (List (float2 R))
  SPHheader : Option (List (header_t R))
  SPHdata : Option (List (sph_t R))

/-- Keep the next element after skipping `k`, then every `r`-th one. -/
def everyNthFrom {α : Type} (r : Nat) : Nat → List α → List α
  | _, [] => []
  | 0, x :: xs => x :: everyNthFrom r (r - 1) xs
  | k + 1, _ :: xs => everyNthFrom r k xs

/-- Modelled from the spec: the elements a read with reduction factor `r`
retains: "retains every r-th element", the elements 0, r, 2r, ... -/
def everyNth {α : Type} (r : Nat) (xs : List α) : List α := everyNthFrom r 0 xs

/-- Modelled from the spec: `out.read(dataset, true, reduce)` of
`BonsaiIO::Core`: `none` (the call returns false) when the file has no such
dataset, else the retained elements, which the call leaves in the `DataType`
object.  A `DataType` that was not read, or whose read failed, is empty. -/
def read {R α : Type} (name : Dataset) (content : Option (List α)) (reduce : Int) :
    Exec (ProgState R) (Option (List α)) := do
  emit (Event.read name reduce)
  pure (content.map (everyNth reduce.toNat))

/-- The four `DataType` objects of one species after the reads. -/
structure SpeciesData (R : Type) where
  IDList : List IDType
  pos : List (float4 R)
  vel : List (float3 R)
  rhoh : List (float2 R)
  deriving DecidableEq, Repr

/-- The four `DataType` objects of a species as constructed, before any read. -/
def SpeciesData.unread (R : Type) : SpeciesData R :=
  { IDList := [], pos := [], vel := [], rhoh := [] }

/-! ## Generic reader: `readBonsai` -/

/-- The Stars block of `readBonsai` (lines 125-151).  `none` stands for
`return NULL`. -/
def readBonsaiStars {R : Type} (out : BonsaiFile R) (reduceS : Int) :
    Exec (ProgState R) (Option (SpeciesData R)) := do
  if reduceS > 0 then
    let IDListS ← read Dataset.StarsIDType out.StarsIDType reduceS
    match IDListS with
    | none => pure none
    | some IDListS =>
      let posS ← read Dataset.StarsPOS out.StarsPOS reduceS
      Exec.assert posS.isSome
      let posS := posS.getD []
      let velS ← read Dataset.StarsVEL out.StarsVEL reduceS
      Exec.assert velS.isSome
      let velS := velS.getD []
      let rhohS ← read Dataset.StarsRHOH out.StarsRHOH reduceS
      let renderDensity := rhohS.isSome
      let rhohS := rhohS.getD []
      Exec.assert (IDListS.length == posS.length)
      Exec.assert (IDListS.length == velS.length)
      if renderDensity then
        Exec.assert (IDListS.length == posS.length)
      pure (some { IDList := IDListS, pos := posS, vel := velS, rhoh := rhohS })
  else
    pure (some (SpeciesData.unread R))

/-- The DM block of `readBonsai` (lines 153-178).  Its three assertions are on
the Stars objects `IDListS`, `posS`, `velS`, as in the source.  `none` stands
for `return NULL`. -/
def readBonsaiDM {R : Type} (out : BonsaiFile R) (reduceDM : Int) (S : SpeciesData R) :
    Exec (ProgState R) (Option (SpeciesData R)) := do
  if reduceDM > 0 then
    let IDListDM ← read Dataset.DMIDType out.DMIDType reduceDM
    match IDListDM with
    | none => pure none
    | some IDListDM =>
      let posDM ← read Dataset.DMPOS out.DMPOS reduceDM
      Exec.assert posDM.isSome
      let posDM := posDM.getD []
      let velDM ← read Dataset.DMVEL out.DMVEL reduceDM
      Exec.assert velDM.isSome
      let velDM := velDM.getD []
      let rhohDM ← read Dataset.DMRHOH out.DMRHOH reduceDM
      let renderDensity := rhohDM.isSome
      let rhohDM := rhohDM.getD []
      Exec.assert (S.IDList.length == S.pos.length)
      Exec.assert (S.IDList.length == S.vel.length)
      if renderDensity then
        Exec.assert (S.IDList.length == S.pos.length)
      pure (some { IDList := IDListDM, pos := posDM, vel := velDM, rhoh := rhohDM })
  else
    pure (some (SpeciesData.unread R))

/-- Body of the Stars loop of `readBonsai` (lines 198-223), `ip = i`. -/
def starBody {R : Type} [Scalar R] (S : SpeciesData R) (i : Nat) : Exec (ProgState R) Unit := do
  let ip := i
  let pos ← Exec.index S.pos i
  let id ← Exec.index S.IDList i
  store ip (fun p =>
    { p with posx := pos.c0, posy := pos.c1, posz := pos.c2,
             ID := id.getID, type := id.getType })
  let t ← typeAt ip
  Exec.assert (t == 1)
  let vel ← Exec.index S.vel i
  store ip (fun p => { p with vel := vnorm vel.c0 vel.c1 vel.c2 })
  if S.rhoh.length > 0 then
    let rhoh ← Exec.index S.rhoh i
    store ip (fun p => { p with rho := rhoh.c0, h := rhoh.c1 })
  else
    store ip (fun p => { p with rho := 0, h := 0 })

/-- Body of the DM loop of `readBonsai` (lines 224-249), `ip = i + nS`. -/
def dmBody {R : Type} [Scalar R] (DM : SpeciesData R) (nS : Nat) (i : Nat) :
    Exec (ProgState R) Unit := do
  let ip := i + nS
  let pos ← Exec.index DM.pos i
  let id ← Exec.index DM.IDList i
  store ip (fun p =>
    { p with posx := pos.c0, posy := pos.c1, posz := pos.c2,
             ID := id.getID, type := id.getType })
  let t ← typeAt ip
  Exec.assert (t == 0)
  let vel ← Exec.index DM.vel i
  store ip (fun p => { p with vel := vnorm vel.c0 vel.c1 vel.c2 })
  if DM.rhoh.length > 0 then
    let rhoh ← Exec.index DM.rhoh i
    store ip (fun p => { p with rho := rhoh.c0, h := rhoh.c1 })
  else
    store ip (fun p => { p with rho := 0, h := 0 })

/-- The function `readBonsai` (lines 107-252) on the opened file `out`.  The
value is the returned pointer: `none` for `NULL`, else the object built, which
is also `rData` of the final state. -/
def readBonsai {R : Type} [Scalar R] (junk : Nat → particle_t R) (out : BonsaiFile R)
    (reduceDM reduceS : Int) : Exec (ProgState R) (Option (RendererData R)) := do
  match ← readBonsaiStars out reduceS with
  | none => pure none
  | some S =>
    match ← readBonsaiDM out reduceDM S with
    | none => pure none
    | some DM =>
      let nS := S.IDList.length
      let nDM := DM.IDList.length
      Exec.modify (fun s =>
        { s with rData := (RendererData.fresh R).resize junk (nS + nDM) })
      Exec.forLoop (starBody S) nS 0
      Exec.forLoop (dmBody DM nS) nDM 0
      let s ← Exec.get
      pure (some s.rData)

/-! ## Legacy reader: `readJamieSPH` -/

/-- Body of the loop of `readJamieSPH` (lines 321-340), `ip = i`. -/
def sphBody {R : Type} [Scalar R] (sph : List (sph_t R)) (i : Nat) : Exec (ProgState R) Unit := do
  let ip := i
  let e ← Exec.index sph i
  store ip (fun p =>
    { p with posx := e.x, posy := e.y, posz := e.z, ID := i, type := 1,
             vel := vnorm e.vx e.vy e.vz, rho := e.rho, h := e.hp })

/-- The function `readJamieSPH` (lines 255-343) on the opened file `out`.  The
value is the returned pointer, as for `readBonsai`. -/
def readJamieSPH {R : Type} [Scalar R] (junk : Nat → particle_t R) (out : BonsaiFile R)
    (reduceS : Int) : Exec (ProgState R) (Option (RendererData R)) := do
  Exec.assert (reduceS > 0)
  let h ← read Dataset.SPHheader out.SPHheader 1
  match h with
  | none => pure none
  | some _ =>
    let sph ← read Dataset.SPHdata out.SPHdata reduceS
    Exec.assert sph.isSome
    let sph := sph.getD []
    Exec.modify (fun s =>
      { s with rData := (RendererData.fresh R).resize junk sph.length })
    Exec.forLoop (sphBody sph) sph.length 0
    let s ← Exec.get
    pure (some s.rData)

/-! ## `main`: option validation and loading -/

/-- The variables of `main` after the option block (lines 365-431): what
`opt.hasOptions()` and the help flag say, and `inSitu`, `fileName`,
`reduceDM` (10 unless given), `reduceS` (1 unless given). -/
structure Options where
  hasOptions : Bool
  help : Bool
  inSitu : Bool
  fileName : String
  reduceDM : Int
  reduceS : Int
  deriving DecidableEq, Repr

/-- The statements `opt.printUsage(); ::exit(0);`. -/
def usageExit {R α : Type} : Exec (ProgState R) α := do
  emit Event.printUsage
  Exec.halt (Halt.exit 0)

/-- The part of `main` from the help test to the loaded data (lines 413-469):
`fs` gives the content of the file of each name, `header` and `data` the
shared region. -/
def mainLoad {R : Type} [Scalar R] (junk : Nat → particle_t R)
    (fs : String → BonsaiFile R)
    (header : BonsaiSharedQuickHeader R) (data : List (BonsaiSharedQuickData R))
    (opt : Options) : Exec (ProgState R) Unit := do
  if !opt.hasOptions || opt.help then
    usageExit
  if (opt.fileName.isEmpty && !opt.inSitu) || opt.reduceDM < 0 || opt.reduceS < 0 then
    usageExit
  if opt.inSitu then
    Exec.modify (fun s => { s with rData := RendererData.fresh R })
    fetchSharedData junk header data
  else
    emit (Event.readBonsai opt.fileName opt.reduceDM opt.reduceS)
    match ← readBonsai junk (fs opt.fileName) opt.reduceDM opt.reduceS with
    | some d => Exec.modify (fun s => { s with rData := d })
    | none =>
      emit (Event.readJamieSPH opt.fileName opt.reduceS)
      match ← readJamieSPH junk (fs opt.fileName) opt.reduceS with
      | some d => Exec.modify (fun s => { s with rData := d })
      | none =>
        emit Event.MPI_Finalize
        Exec.halt (Halt.exit (-1))

/-! ## `main`: the polling loop -/

/-- Modelled from the spec: `setNewData()` raises the "new data available"
flag. -/
def RendererData.setNewData {R : Type} (d : RendererData R) : RendererData R :=
  { d with new_data := true }

/-- Loop body shared by the two species loops of `readBonsai`: element `i` of
the species data `D` goes to index `i + off`, and its species code is asserted
to be `c`.  `starBody S` is `speciesBody 1 0 S` and `dmBody DM nS` is
`speciesBody 0 nS DM`. -/
def speciesBody {R : Type} [Scalar R] (c off : Nat) (D : SpeciesData R) (i : Nat) :
    Exec (ProgState R) Unit := do
  let ip := i + off
  let pos ← Exec.index D.pos i
  let id ← Exec.index D.IDList i
  store ip (fun p =>
    { p with posx := pos.c0, posy := pos.c1, posz := pos.c2,
             ID := id.getID, type := id.getType })
  let t ← typeAt ip
  Exec.assert (t == c)
  let vel ← Exec.index D.vel i
  store ip (fun p => { p with vel := vnorm vel.c0 vel.c1 vel.c2 })
  if D.rhoh.length > 0 then
    let rhoh ← Exec.index D.rhoh i
    store ip (fun p => { p with rho := rhoh.c0, h := rhoh.c1 })
  else
    store ip (fun p => { p with rho := 0, h := 0 })

/-- Particle `p` holds element `i` of the species data `D` with species code
`c`: its position, unpacked identifier, species, velocity magnitude, and its
density and smoothing length (both zero when the species has no density
data). -/
def IsElement {R : Type} [Scalar R] (c : Nat) (D : SpeciesData R) (i : Nat)
    (p : particle_t R) : Prop :=
  ∃ pos id vel, D.pos[i]? = some pos ∧ D.IDList[i]? = some id ∧ D.vel[i]? = some vel ∧
    p.posx = pos.c0 ∧ p.posy = pos.c1 ∧ p.posz = pos.c2 ∧
    p.ID = id.getID ∧ p.type = c ∧ id.getType = c ∧
    p.vel = vnorm vel.c0 vel.c1 vel.c2 ∧
    ((D.rhoh = [] ∧ p.rho = 0 ∧ p.h = 0) ∨
      ∃ rh, D.rhoh[i]? = some rh ∧ p.rho = rh.c0 ∧ p.h = rh.c1)

/-- The elements of a dataset that a reader holds after its reads: those a read
with factor `reduce` retains, none when the species is disabled (`reduce` not
positive) or the file lacks the dataset. -/
def retained {α : Type} (content : Option (List α)) (reduce : Int) : List α :=
  if reduce > 0 then (content.map (everyNth reduce.toNat)).getD [] else []

/-- The retained Star elements of a file under the factor `reduceS`. -/
def retainedStars {R : Type} (out : BonsaiFile R) (reduceS : Int) : SpeciesData R :=
  { IDList := retained out.StarsIDType reduceS, pos := retained out.StarsPOS reduceS,
    vel := retained out.StarsVEL reduceS, rhoh := retained out.StarsRHOH reduceS }

/-- The retained DarkMatter elements of a file under the factor `reduceDM`. -/
def retainedDM {R : Type} (out : BonsaiFile R) (reduceDM : Int) : SpeciesData R :=
  { IDList := retained out.DMIDType reduceDM, pos := retained out.DMPOS reduceDM,
    vel := retained out.DMVEL reduceDM, rhoh := retained out.DMRHOH reduceDM }

/-- The state an execution ends in, whether it returned or halted. -/
def Result.state {σ α : Type} : Result σ α → σ
  | Result.ok _ s => s
  | Result.halt _ s => s

/-- Every call to outside code that `x` makes satisfies `P`: from any state, the
log at the end of `x`, returned or halted, is the log at the start followed by
events that all satisfy `P`. -/
def Emits {R α : Type} (P : Event → Prop) (x : Exec (ProgState R) α) : Prop :=
  ∀ s, ∃ evs, (x s).state.log = s.log ++ evs ∧ ∀ e ∈ evs, P e

/-- The event is a read of one of the four Stars datasets. -/
def IsStarsRead (e : Event) : Prop :=
  ∃ r, e = Event.read Dataset.StarsIDType r ∨ e = Event.read Dataset.StarsPOS r ∨
    e = Event.read Dataset.StarsVEL r ∨ e = Event.read Dataset.StarsRHOH r

/-- The event is a read of one of the four DM datasets. -/
def IsDMRead (e : Event) : Prop :=
  ∃ r, e = Event.read Dataset.DMIDType r ∨ e = Event.read Dataset.DMPOS r ∨
    e = Event.read Dataset.DMVEL r ∨ e = Event.read Dataset.DMRHOH r

/-- Code `x` leaves the "new data" flag and the static `tLast` as they were,
whether it returns or halts. -/
def Keeps {R α : Type} (x : Exec (ProgState R) α) : Prop :=
  ∀ s, (x s).state.rData.new_data = s.rData.new_data ∧ (x s).state.tLast = s.tLast

/-- The four datasets of a species are well formed for species code `c`: the
identifier, position and velocity datasets are present with the same element
count, the density dataset is absent or has that count too, and every
identifier carries the code `c`. -/
def WellFormedSpecies {R : Type} (c : Nat) (ids : Option (List IDType))
    (pos : Option (List (float4 R))) (vel : Option (List (float3 R)))
    (rhoh : Option (List (float2 R))) : Prop :=
  ∃ i p v, ids = some i ∧ pos = some p ∧ vel = some v ∧
    p.length = i.length ∧ v.length = i.length ∧
    (rhoh = none ∨ ∃ rh, rhoh = some rh ∧ rh.length = i.length) ∧
    ∀ x ∈ i, x.getType = c

/-! ## Concrete inputs

Integers stand in for the scalars, with the floor of the square root. -/

/-- Floor of the square root of a natural number. -/
def isqrt (n : Nat) : Nat :=
  (List.range (n + 1)).foldl (fun r k => if k * k ≤ n then k else r) 0

instance instScalarInt : Scalar Int where
  sqrt := fun z => (isqrt z.toNat : Int)
  decEq := inferInstance
  decLt := fun a b => Int.decLt a b

/-- Content of a resized array before it is populated: recognisable filler. -/
def junkInt : Nat → particle_t Int :=
  fun k => { posx := 0, posy := 0, posz := 0, ID := 1000 + k, type := 99,
             mass := 0, vel := 0, rho := 0, h := 0 }

/-- The state at program start: a fresh `RendererData`, `tLast = -1.0f`,
nothing logged. -/
def startState : ProgState Int :=
  { rData := RendererData.fresh Int, tLast := -1, log := [] }

/-- Shared-memory entry number `k` with density `rho`: position
`(10k, 10k+1, 10k+2)`, velocity `(3, 4, 0)`, smoothing length 7, identifier
`100 + k` of species DarkMatter. -/
def entry (k : Nat) (rho : Int) : BonsaiSharedQuickData Int :=
  { x := 10 * k, y := 10 * k + 1, z := 10 * k + 2, vx := 3, vy := 4, vz := 0,
    rho := rho, h := 7, ID := { getID := 100 + k, getType := 0 } }

/-- The Data slot of the density-filter example: densities `[1, 0, 3, 0, 2]`. -/
def dataC1 : List (BonsaiSharedQuickData Int) :=
  [entry 0 1, entry 1 0, entry 2 3, entry 3 0, entry 4 2]

/-- The particle built from `entry k rho`. -/
def particleOf (k : Nat) (rho : Int) : particle_t Int :=
  { posx := 10 * k, posy := 10 * k + 1, posz := 10 * k + 2, ID := 100 + k, type := 0,
    mass := 0, vel := 5, rho := rho, h := 7 }

/-- A file with no dataset at all. -/
def noFile : BonsaiFile Int :=
  { StarsIDType := none, StarsPOS := none, StarsVEL := none, StarsRHOH := none,
    DMIDType := none, DMPOS := none, DMVEL := none, DMRHOH := none,
    SPHheader := none, SPHdata := none }

/-- A file whose DM datasets disagree in length: one identifier, two
positions, one velocity. -/
def fileDMMismatch : BonsaiFile Int :=
  { noFile with
    DMIDType := some [{ getID := 5, getType := 0 }],
    DMPOS := some [{ c0 := 1, c1 := 2, c2 := 3, c3 := 4 }, { c0 := 5, c1 := 6, c2 := 7, c3 := 8 }],
    DMVEL := some [{ c0 := 3, c1 := 4, c2 := 0 }] }

/-- A file whose Stars density dataset disagrees in length with the others:
one identifier, position and velocity, two density records. -/
def fileStarsRhohMismatch : BonsaiFile Int :=
  { noFile with
    StarsIDType := some [{ getID := 6, getType := 1 }],
    StarsPOS := some [{ c0 := 1, c1 := 2, c2 := 3, c3 := 4 }],
    StarsVEL := some [{ c0 := 3, c1 := 4, c2 := 0 }],
    StarsRHOH := some [{ c0 := 8, c1 := 9 }, { c0 := 10, c1 := 11 }] }

/-- A file with the DM identifiers but without the DM positions. -/
def fileDMNoPos : BonsaiFile Int :=
  { noFile with
    DMIDType := some [{ getID := 5, getType := 0 }],
    DMVEL := some [{ c0 := 3, c1 := 4, c2 := 0 }] }

/-- Legacy record number `k`: position `(k, k+1, k+2)`, velocity `(3, 4, 0)`,
smoothing length 2, density 3. -/
def sphRecord (k : Int) : sph_t Int :=
  { x := k, y := k + 1, z := k + 2, am := 1, hp := 2, rho := 3, vx := 3, vy := 4, vz := 0,
    vxdot := 0, vydot := 0, vzdot := 0, u := 0, udot := 0, grpot := 0, mmu := 0, cc := 0,
    divv := 0 }

/-- A legacy header record. -/
def sphHeader : header_t Int :=
  { ntot := 3, nnopt := 0, hmin := 0, hmax := 0, sep0 := 0, tf := 0, dtout := 0, nout := 0,
    nit := 0, t := 0, anv := 0, alpha := 0, beta := 0, tskip := 0, ngr := 0, nrelax := 0,
    trelax := 0, dt := 0, omega2 := 0 }

/-- A legacy file: the header and three records. -/
def fileSPH : BonsaiFile Int :=
  { noFile with
    SPHheader := some [sphHeader],
    SPHdata := some [sphRecord 10, sphRecord 20, sphRecord 30] }

/-- The particles `readJamieSPH` builds from `fileSPH` with factor 2 (records
0 and 2 are retained). -/
def particlesSPH : List (particle_t Int) :=
  [{ posx := 10, posy := 11, posz := 12, ID := 0, type := 1, mass := 0, vel := 5, rho := 3, h := 2 },
   { posx := 30, posy := 31, posz := 32, ID := 1, type := 1, mass := 0, vel := 5, rho := 3, h := 2 }]

/-- A state after a successful poll at time 3: two particles, flag down,
`tLast = 3`. -/
def polledState : ProgState Int :=
  { rData := { data := [particleOf 0 1, particleOf 1 2], new_data := false },
    tLast := 3, log := [] }

/-- The state `polledState` with the "new data" flag up. -/
def flaggedState : ProgState Int :=
  { rData := { data := [particleOf 0 1, particleOf 1 2], new_data := true },
    tLast := 3, log := [] }

/-- Options of a run `--infile snap --reduceS 0` (`reduceDM` at its default). -/
def optsReduceS0 : Options :=
  { hasOptions := true, help := false, inSitu := false, fileName := "snap",
    reduceDM := 10, reduceS := 0 }

/-- Options of a run `--infile snap` (both factors at their defaults). -/
def optsDefault : Options :=
  { hasOptions := true, help := false, inSitu := false, fileName := "snap",
    reduceDM := 10, reduceS := 1 }

/-- A file whose only DM identifier carries the species code of Star. -/
def fileDMWrongCode : BonsaiFile Int :=
  { noFile with
    DMIDType := some [{ getID := 5, getType := 1 }],
    DMPOS := some [{ c0 := 1, c1 := 2, c2 := 3, c3 := 4 }],
    DMVEL := some [{ c0 := 3, c1 := 4, c2 := 0 }] }

/-- A file with two DM identifiers and velocities but one DM position. -/
def fileDMShortPos : BonsaiFile Int :=
  { noFile with
    DMIDType := some [{ getID := 5, getType := 0 }, { getID := 6, getType := 0 }],
    DMPOS := some [{ c0 := 1, c1 := 2, c2 := 3, c3 := 4 }],
    DMVEL := some [{ c0 := 3, c1 := 4, c2 := 0 }, { c0 := 0, c1 := 0, c2 := 1 }] }

theorem Exec.bind_eq {σ α β : Type} (x : Exec σ α) (f : α → Exec σ β) :
    (x >>= f) = Exec.bind x f := rfl

theorem Exec.pure_eq {σ α : Type} (a : α) : (Pure.pure a : Exec σ α) = Exec.pure a := rfl

theorem modifyAt_eq {α : Type} (f : α → α) :
    ∀ (i : Nat) (l : List α), modifyAt f i l = (l[i]?).map (fun x => l.set i (f x)) := by
  intro i l
  induction l generalizing i with
  | nil => simp [modifyAt]
  | cons x xs ih =>
    cases i with
    | zero => simp [modifyAt]
    | succ i => 
      simp only [modifyAt, ih, List.getElem?_cons_succ, List.set_cons_succ]
      cases xs[i]? <;> simp

theorem store_eq {R : Type} (ip : Nat) (f : particle_t R → particle_t R) (s : ProgState R) :
    store ip f s =
      match s.rData.data[ip]? with
      | some p => Result.ok () { s with rData := { s.rData with data := s.rData.data.set ip (f p) } }
      | none => Result.halt Halt.outOfBounds s := by
  simp only [store, RendererData.store, modifyAt_eq]
  cases s.rData.data[ip]? <;> simp

theorem starBody_eq {R : Type} [Scalar R] (S : SpeciesData R) :
    starBody S = speciesBody 1 0 S := rfl

theorem dmBody_eq {R : Type} [Scalar R] (DM : SpeciesData R) (nS : Nat) :
    dmBody DM nS = speciesBody 0 nS DM := rfl

theorem speciesBody_ok {R : Type} [Scalar R] (c off : Nat) (D : SpeciesData R) (i : Nat)
    (s s' : ProgState R) (h : speciesBody c off D i s = Result.ok () s') :
    s'.log = s.log ∧ s'.tLast = s.tLast ∧ s'.rData.new_data = s.rData.new_data ∧
    s'.rData.data.length = s.rData.data.length ∧
    (∃ p, s'.rData.data[i + off]? = some p ∧ IsElement c D i p) ∧
    ∀ k, k ≠ i + off → s'.rData.data[k]? = s.rData.data[k]? := by
  simp only [speciesBody, Exec.bind_eq, Exec.pure_eq, Exec.bind, Exec.index, List.get?_eq_getElem?] at h
  cases hpos : D.pos[i]? with
  | none => simp [hpos, Exec.halt] at h
  | some pos =>
    cases hid : D.IDList[i]? with
    | none => simp [hpos, hid, Exec.halt, Exec.pure] at h
    | some id =>
      cases hp0 : s.rData.data[i + off]? with
      | none => simp [hpos, hid, Exec.halt, Exec.pure, store_eq, hp0] at h
      | some p0 =>
        have hlt : i + off < s.rData.data.length := by
          rcases List.getElem?_eq_some.mp hp0 with ⟨hh, _⟩; exact hh
        simp [hpos, hid, Exec.halt, Exec.pure, store_eq, hp0, typeAt, hlt, Exec.assert] at h
        by_cases hty : id.getType = c
        · cases hvel : D.vel[i]? with
          | none => simp [hty, hvel, Exec.pure, Exec.halt] at h
          | some vel =>
            by_cases hr : 0 < D.rhoh.length
            · cases hrh : D.rhoh[i]? with
              | none => simp [hty, hvel, Exec.pure, Exec.halt, hlt, hr, hrh, Exec.bind] at h
              | some rh =>
                simp [hty, hvel, Exec.pure, Exec.halt, hlt, hr, hrh, Exec.bind, store_eq] at h
                subst h
                refine ⟨rfl, rfl, rfl, (by simp), ⟨
                  { posx := pos.c0, posy := pos.c1, posz := pos.c2, ID := id.getID, type := c,
                    mass := p0.mass, vel := vnorm vel.c0 vel.c1 vel.c2, rho := rh.c0, h := rh.c1 },
                  (by simp [hlt]), ?_⟩, ?_⟩
                · exact ⟨pos, id, vel, hpos, hid, hvel, rfl, rfl, rfl, rfl, rfl, hty, rfl,
                    Or.inr ⟨rh, hrh, rfl, rfl⟩⟩
                · intro k hk
                  simp [List.getElem?_set_ne (Ne.symm hk)]
            · have hnil : D.rhoh = [] := by
                cases hD : D.rhoh with
                | nil => rfl
                | cons a l => simp [hD] at hr
              simp [hty, hvel, Exec.pure, Exec.halt, hlt, hr, Exec.bind, store_eq] at h
              subst h
              refine ⟨rfl, rfl, rfl, (by simp), ⟨
                { posx := pos.c0, posy := pos.c1, posz := pos.c2, ID := id.getID, type := c,
                  mass := p0.mass, vel := vnorm vel.c0 vel.c1 vel.c2, rho := 0, h := 0 },
                (by simp [hlt]), ?_⟩, ?_⟩
              · exact ⟨pos, id, vel, hpos, hid, hvel, rfl, rfl, rfl, rfl, rfl, hty, rfl,
                  Or.inl ⟨hnil, rfl, rfl⟩⟩
              · intro k hk
                simp [List.getElem?_set_ne (Ne.symm hk)]
        · simp [hty, Exec.halt] at h

theorem speciesLoop_ok {R : Type} [Scalar R] (c off : Nat) (D : SpeciesData R) :
    ∀ (n i : Nat) (s s' : ProgState R),
      Exec.forLoop (speciesBody c off D) n i s = Result.ok () s' →
      s'.log = s.log ∧ s'.tLast = s.tLast ∧ s'.rData.new_data = s.rData.new_data ∧
      s'.rData.data.length = s.rData.data.length ∧
      (∀ k, i ≤ k → k < i + n → ∃ p, s'.rData.data[k + off]? = some p ∧ IsElement c D k p) ∧
      ∀ k, (k < i + off ∨ i + n + off ≤ k) → s'.rData.data[k]? = s.rData.data[k]? := by
  intro n
  induction n with
  | zero =>
    intro i s s' h
    simp only [Exec.forLoop, Exec.pure, Result.ok.injEq, true_and] at h
    subst h
    exact ⟨rfl, rfl, rfl, rfl, fun k h1 h2 => absurd h2 (by omega), fun _ _ => rfl⟩
  | succ n ih =>
    intro i s s' h
    simp only [Exec.forLoop, Exec.bind] at h
    cases hb : speciesBody c off D i s with
    | halt w s1 => simp [hb] at h
    | ok u s1 =>
      simp only [hb] at h
      obtain ⟨b1, b2, b3, b4, ⟨p, bp, be⟩, b6⟩ := speciesBody_ok c off D i s s1 hb
      obtain ⟨l1, l2, l3, l4, l5, l6⟩ := ih (i + 1) s1 s' h
      refine ⟨l1.trans b1, l2.trans b2, l3.trans b3, l4.trans b4, ?_, ?_⟩
      · intro k hk1 hk2
        by_cases hki : k = i
        · subst hki
          refine ⟨p, ?_, be⟩
          rw [l6 (k + off) (Or.inl (by omega))]
          exact bp
        · exact l5 k (by omega) (by omega)
      · intro k hk
        rw [l6 k (by omega), b6 k (by omega)]

theorem readBonsaiStars_some {R : Type} (out : BonsaiFile R) (r : Int) (s s1 : ProgState R)
    (S : SpeciesData R) (h : readBonsaiStars out r s = Result.ok (some S) s1) :
    S = retainedStars out r ∧ s1.rData = s.rData ∧ s1.tLast = s.tLast ∧
      S.pos.length = S.IDList.length ∧ S.vel.length = S.IDList.length := by
  by_cases hr : r > 0
  · cases hid : out.StarsIDType <;> cases hpos : out.StarsPOS <;> cases hvel : out.StarsVEL <;>
      cases hrh : out.StarsRHOH <;>
      simp [readBonsaiStars, read, emit, Exec.bind_eq, Exec.pure_eq, Exec.bind, Exec.pure,
        Exec.modify, Exec.assert, Exec.halt, hr, hid, hpos, hvel, hrh] at h
    all_goals
      split_ifs at h with h1 h2 <;> simp [Exec.pure, Exec.halt] at h
      obtain ⟨h3, h4⟩ := h
      subst h3 h4
      refine ⟨?_, rfl, rfl, h1.symm, h2.symm⟩
      simp [retainedStars, retained, hr, hid, hpos, hvel, hrh]
  · simp [readBonsaiStars, hr, Exec.pure_eq, Exec.pure] at h
    obtain ⟨h1, h2⟩ := h
    subst h1 h2
    simp [retainedStars, retained, hr, SpeciesData.unread]

theorem readBonsaiStars_none {R : Type} (out : BonsaiFile R) (r : Int) (s s1 : ProgState R)
    (h : readBonsaiStars out r s = Result.ok none s1) :
    r > 0 ∧ out.StarsIDType = none ∧ s1.rData = s.rData ∧ s1.tLast = s.tLast := by
  by_cases hr : r > 0
  · cases hid : out.StarsIDType <;> cases hpos : out.StarsPOS <;> cases hvel : out.StarsVEL <;>
      cases hrh : out.StarsRHOH <;>
      simp [readBonsaiStars, read, emit, Exec.bind_eq, Exec.pure_eq, Exec.bind, Exec.pure,
        Exec.modify, Exec.assert, Exec.halt, hr, hid, hpos, hvel, hrh] at h
    any_goals
      (first
        | (subst h; exact ⟨hr, rfl, rfl, rfl⟩)
        | (split_ifs at h <;> simp [Exec.pure, Exec.halt] at h))
  · simp [readBonsaiStars, hr, Exec.pure_eq, Exec.pure] at h

theorem readBonsaiDM_some {R : Type} (out : BonsaiFile R) (r : Int) (S : SpeciesData R)
    (s s1 : ProgState R) (DM : SpeciesData R)
    (h : readBonsaiDM out r S s = Result.ok (some DM) s1) :
    DM = retainedDM out r ∧ s1.rData = s.rData ∧ s1.tLast = s.tLast := by
  by_cases hr : r > 0
  · cases hid : out.DMIDType <;> cases hpos : out.DMPOS <;> cases hvel : out.DMVEL <;>
      cases hrh : out.DMRHOH <;>
      simp [readBonsaiDM, read, emit, Exec.bind_eq, Exec.pure_eq, Exec.bind, Exec.pure,
        Exec.modify, Exec.assert, Exec.halt, hr, hid, hpos, hvel, hrh] at h
    all_goals
      split_ifs at h with h1 h2 <;> simp [Exec.pure, Exec.halt] at h
      obtain ⟨h3, h4⟩ := h
      subst h3 h4
      simp [retainedDM, retained, hr, hid, hpos, hvel, hrh]
  · simp [readBonsaiDM, hr, Exec.pure_eq, Exec.pure] at h
    obtain ⟨h1, h2⟩ := h
    subst h1 h2
    simp [retainedDM, retained, hr, SpeciesData.unread]

theorem readBonsaiDM_none {R : Type} (out : BonsaiFile R) (r : Int) (S : SpeciesData R)
    (s s1 : ProgState R) (h : readBonsaiDM out r S s = Result.ok none s1) :
    r > 0 ∧ out.DMIDType = none ∧ s1.rData = s.rData ∧ s1.tLast = s.tLast := by
  by_cases hr : r > 0
  · cases hid : out.DMIDType <;> cases hpos : out.DMPOS <;> cases hvel : out.DMVEL <;>
      cases hrh : out.DMRHOH <;>
      simp [readBonsaiDM, read, emit, Exec.bind_eq, Exec.pure_eq, Exec.bind, Exec.pure,
        Exec.modify, Exec.assert, Exec.halt, hr, hid, hpos, hvel, hrh] at h
    any_goals
      (first
        | (subst h; exact ⟨hr, rfl, rfl, rfl⟩)
        | (split_ifs at h <;> simp [Exec.pure, Exec.halt] at h))
  · simp [readBonsaiDM, hr, Exec.pure_eq, Exec.pure] at h

theorem readBonsai_some {R : Type} [Scalar R] (junk : Nat → particle_t R) (out : BonsaiFile R)
    (rDM rS : Int) (s s' : ProgState R) (d : RendererData R)
    (h : readBonsai junk out rDM rS s = Result.ok (some d) s') :
    s'.rData = d ∧ d.new_data = false ∧
    d.data.length = (retainedStars out rS).IDList.length + (retainedDM out rDM).IDList.length ∧
    (∀ i, i < (retainedStars out rS).IDList.length →
      ∃ p, d.data[i]? = some p ∧ IsElement 1 (retainedStars out rS) i p) ∧
    (∀ j, j < (retainedDM out rDM).IDList.length →
      ∃ p, d.data[(retainedStars out rS).IDList.length + j]? = some p ∧
        IsElement 0 (retainedDM out rDM) j p) := by
  simp only [readBonsai, Exec.bind_eq, Exec.pure_eq, Exec.bind] at h
  cases hS : readBonsaiStars out rS s with
  | halt w s1 => simp [hS] at h
  | ok oS s1 =>
    cases oS with
    | none => simp [hS, Exec.pure] at h
    | some S =>
      simp only [hS, Exec.bind] at h
      cases hD : readBonsaiDM out rDM S s1 with
      | halt w s2 => simp [hD] at h
      | ok oD s2 =>
        cases oD with
        | none => simp [hD, Exec.pure] at h
        | some DM =>
          simp only [hD, Exec.bind, Exec.modify, starBody_eq, dmBody_eq] at h
          obtain ⟨eS, -, -, -, -⟩ := readBonsaiStars_some out rS s s1 S hS
          obtain ⟨eD, -, -⟩ := readBonsaiDM_some out rDM S s1 s2 DM hD
          subst eS eD
          generalize hs3 : ProgState.mk ((RendererData.fresh R).resize junk
            ((retainedStars out rS).IDList.length + (retainedDM out rDM).IDList.length))
            s2.tLast s2.log = s3 at h
          cases hL1 : Exec.forLoop (speciesBody 1 0 (retainedStars out rS))
              (retainedStars out rS).IDList.length 0 s3 with
          | halt w s4 => simp [hL1] at h
          | ok u s4 =>
            simp only [hL1] at h
            cases hL2 : Exec.forLoop
                (speciesBody 0 (retainedStars out rS).IDList.length (retainedDM out rDM))
                (retainedDM out rDM).IDList.length 0 s4 with
            | halt w s5 => simp [hL2] at h
            | ok u2 s5 =>
              simp only [hL2, Exec.get, Exec.pure, Result.ok.injEq, Option.some.injEq] at h
              obtain ⟨h1, h2⟩ := h
              subst h2
              obtain ⟨-, -, a3, a4, a5, -⟩ := speciesLoop_ok _ _ _ _ _ _ _ hL1
              obtain ⟨-, -, b3, b4, b5, b6⟩ := speciesLoop_ok _ _ _ _ _ _ _ hL2
              have hlen3 : s3.rData.data.length = (retainedStars out rS).IDList.length +
                  (retainedDM out rDM).IDList.length := by
                rw [← hs3]; simp [RendererData.resize]
              have hnew3 : s3.rData.new_data = false := by
                rw [← hs3]; simp [RendererData.resize, RendererData.fresh]
              subst h1
              refine ⟨rfl, by rw [b3, a3, hnew3], by rw [b4, a4, hlen3], ?_, ?_⟩
              · intro i hi
                rw [b6 i (Or.inl (by omega))]
                simpa using a5 i (Nat.zero_le _) (by omega)
              · intro j hj
                have := b5 j (Nat.zero_le _) (by omega)
                rwa [Nat.add_comm] at this

theorem speciesBody_total {R : Type} [Scalar R] (c off : Nat) (D : SpeciesData R) (i : Nat)
    (s : ProgState R) (hi : i < D.IDList.length) (hp : D.IDList.length ≤ D.pos.length)
    (hv : D.IDList.length ≤ D.vel.length)
    (hr : D.rhoh = [] ∨ D.IDList.length ≤ D.rhoh.length)
    (hty : ∀ x ∈ D.IDList, x.getType = c) (hlt : i + off < s.rData.data.length) :
    ∃ s', speciesBody c off D i s = Result.ok () s' := by
  have h1 : i < D.pos.length := by omega
  have h2 : i < D.vel.length := by omega
  have h3 : D.IDList[i].getType = c := hty _ (List.getElem_mem _)
  rcases hr with hr | hr
  · simp [speciesBody, Exec.bind_eq, Exec.pure_eq, Exec.bind, Exec.index, Exec.pure, store_eq,
      typeAt, Exec.assert, hi, h1, h2, h3, hlt, hr]
  · have h4 : i < D.rhoh.length := by omega
    have h5 : 0 < D.rhoh.length := by omega
    simp [speciesBody, Exec.bind_eq, Exec.pure_eq, Exec.bind, Exec.index, Exec.pure, store_eq,
      typeAt, Exec.assert, hi, h1, h2, h3, h4, h5, hlt]

theorem speciesLoop_total {R : Type} [Scalar R] (c off : Nat) (D : SpeciesData R)
    (hp : D.IDList.length ≤ D.pos.length) (hv : D.IDList.length ≤ D.vel.length)
    (hr : D.rhoh = [] ∨ D.IDList.length ≤ D.rhoh.length)
    (hty : ∀ x ∈ D.IDList, x.getType = c) :
    ∀ (n i : Nat) (s : ProgState R), i + n ≤ D.IDList.length →
      D.IDList.length + off ≤ s.rData.data.length →
      ∃ s', Exec.forLoop (speciesBody c off D) n i s = Result.ok () s' := by
  intro n
  induction n with
  | zero => intro i s _ _; exact ⟨s, rfl⟩
  | succ n ih =>
    intro i s h1 h2
    obtain ⟨s1, hb⟩ := speciesBody_total c off D i s (by omega) hp hv hr hty (by omega)
    obtain ⟨-, -, -, b4, -, -⟩ := speciesBody_ok c off D i s s1 hb
    obtain ⟨s2, hl⟩ := ih (i + 1) s1 (by omega) (by omega)
    exact ⟨s2, by simp [Exec.forLoop, Exec.bind, hb, hl]⟩

theorem sphBody_ok {R : Type} [Scalar R] (sph : List (sph_t R)) (i : Nat)
    (s s' : ProgState R) (h : sphBody sph i s = Result.ok () s') :
    s'.rData.new_data = s.rData.new_data ∧
    s'.rData.data.length = s.rData.data.length ∧
    (∃ p e, s'.rData.data[i]? = some p ∧ sph[i]? = some e ∧ p.ID = i ∧ p.type = 1 ∧
      p.posx = e.x ∧ p.posy = e.y ∧ p.posz = e.z ∧ p.vel = vnorm e.vx e.vy e.vz ∧
      p.rho = e.rho ∧ p.h = e.hp) ∧
    ∀ k, k ≠ i → s'.rData.data[k]? = s.rData.data[k]? := by
  simp only [sphBody, Exec.bind_eq, Exec.bind, Exec.index, List.get?_eq_getElem?] at h
  cases he : sph[i]? with
  | none => simp [he, Exec.halt] at h
  | some e =>
    cases hp0 : s.rData.data[i]? with
    | none => simp [he, Exec.pure, store_eq, hp0] at h
    | some p0 =>
      have hlt : i < s.rData.data.length := by
        rcases List.getElem?_eq_some.mp hp0 with ⟨hh, _⟩; exact hh
      simp [he, Exec.pure, store_eq, hp0] at h
      subst h
      refine ⟨rfl, (by simp), ⟨_, e, (by simp [hlt]; rfl), rfl, ?_⟩, ?_⟩
      · simp
      · intro k hk
        simp [List.getElem?_set_ne (Ne.symm hk)]

theorem sphLoop_ok {R : Type} [Scalar R] (sph : List (sph_t R)) :
    ∀ (n i : Nat) (s s' : ProgState R),
      Exec.forLoop (sphBody sph) n i s = Result.ok () s' →
      s'.rData.new_data = s.rData.new_data ∧
      s'.rData.data.length = s.rData.data.length ∧
      (∀ k, i ≤ k → k < i + n →
        ∃ p e, s'.rData.data[k]? = some p ∧ sph[k]? = some e ∧ p.ID = k ∧ p.type = 1 ∧
          p.posx = e.x ∧ p.posy = e.y ∧ p.posz = e.z ∧ p.vel = vnorm e.vx e.vy e.vz ∧
          p.rho = e.rho ∧ p.h = e.hp) ∧
      ∀ k, (k < i ∨ i + n ≤ k) → s'.rData.data[k]? = s.rData.data[k]? := by
  intro n
  induction n with
  | zero =>
    intro i s s' h
    simp only [Exec.forLoop, Exec.pure, Result.ok.injEq, true_and] at h
    subst h
    exact ⟨rfl, rfl, fun k h1 h2 => absurd h2 (by omega), fun _ _ => rfl⟩
  | succ n ih =>
    intro i s s' h
    simp only [Exec.forLoop, Exec.bind] at h
    cases hb : sphBody sph i s with
    | halt w s1 => simp [hb] at h
    | ok u s1 =>
      simp only [hb] at h
      obtain ⟨b1, b2, ⟨p, e, bp, be⟩, b4⟩ := sphBody_ok sph i s s1 hb
      obtain ⟨l1, l2, l3, l4⟩ := ih (i + 1) s1 s' h
      refine ⟨l1.trans b1, l2.trans b2, ?_, ?_⟩
      · intro k hk1 hk2
        by_cases hki : k = i
        · subst hki
          refine ⟨p, e, ?_, be⟩
          rw [l4 k (Or.inl (by omega))]
          exact bp
        · exact l3 k (by omega) (by omega)
      · intro k hk
        rw [l4 k (by omega), b4 k (by omega)]

theorem readJamieSPH_some {R : Type} [Scalar R] (junk : Nat → particle_t R) (out : BonsaiFile R)
    (r : Int) (s s' : ProgState R) (d : RendererData R)
    (h : readJamieSPH junk out r s = Result.ok (some d) s') :
    0 < r ∧ out.SPHheader ≠ none ∧ out.SPHdata ≠ none ∧ s'.rData = d ∧
    d.data.length = (retained out.SPHdata r).length ∧
    ∀ i, i < (retained out.SPHdata r).length →
      ∃ p e, d.data[i]? = some p ∧ (retained out.SPHdata r)[i]? = some e ∧
        p.ID = i ∧ p.type = 1 ∧
        p.posx = e.x ∧ p.posy = e.y ∧ p.posz = e.z ∧ p.vel = vnorm e.vx e.vy e.vz ∧
        p.rho = e.rho ∧ p.h = e.hp := by
  by_cases hr : r > 0
  · cases hh : out.SPHheader with
    | none =>
      simp [readJamieSPH, read, emit, Exec.bind_eq, Exec.pure_eq, Exec.bind, Exec.pure,
        Exec.modify, Exec.assert, hr, hh] at h
    | some hd =>
      cases hd2 : out.SPHdata with
      | none =>
        simp [readJamieSPH, read, emit, Exec.bind_eq, Exec.pure_eq, Exec.bind, Exec.pure,
          Exec.modify, Exec.assert, Exec.halt, hr, hh, hd2] at h
      | some sph =>
        simp only [readJamieSPH, read, emit, Exec.bind_eq, Exec.pure_eq, Exec.bind, Exec.pure,
          Exec.modify, Exec.assert, hr, hh, hd2, decide_True, if_true, Option.map_some',
          Option.isSome_some, Option.getD_some] at h
        generalize hs3 : ProgState.mk ((RendererData.fresh R).resize junk
          (everyNth r.toNat sph).length) s.tLast
          ((s.log ++ [Event.read Dataset.SPHheader 1]) ++ [Event.read Dataset.SPHdata r]) = s3
          at h
        cases hL : Exec.forLoop (sphBody (everyNth r.toNat sph)) (everyNth r.toNat sph).length 0 s3 with
        | halt w s4 => simp [hL] at h
        | ok u s4 =>
          simp only [hL, Exec.get, Result.ok.injEq, Option.some.injEq] at h
          obtain ⟨h1, h2⟩ := h
          subst h2
          obtain ⟨-, a2, a3, -⟩ := sphLoop_ok _ _ _ _ _ hL
          have hlen3 : s3.rData.data.length = (everyNth r.toNat sph).length := by
            rw [← hs3]; simp [RendererData.resize]
          have hret : retained (some sph) r = everyNth r.toNat sph := by
            simp [retained, hr]
          refine ⟨hr, by simp, by simp, h1, ?_, ?_⟩
          · rw [hret, ← h1, a2, hlen3]
          · intro i hi
            rw [hret] at hi ⊢
            rw [← h1]
            simpa using a3 i (Nat.zero_le _) (by omega)
  · simp [readJamieSPH, Exec.bind_eq, Exec.bind, Exec.assert, hr, Exec.halt] at h

theorem readJamieSPH_none {R : Type} [Scalar R] (junk : Nat → particle_t R) (out : BonsaiFile R)
    (r : Int) (s s' : ProgState R)
    (h : readJamieSPH junk out r s = Result.ok none s') :
    0 < r ∧ out.SPHheader = none ∧ s'.rData = s.rData ∧
      s'.log = s.log ++ [Event.read Dataset.SPHheader 1] := by
  by_cases hr : r > 0
  · cases hh : out.SPHheader with
    | none =>
      simp [readJamieSPH, read, emit, Exec.bind_eq, Exec.pure_eq, Exec.bind, Exec.pure,
        Exec.modify, Exec.assert, hr, hh] at h
      subst h
      exact ⟨hr, rfl, rfl, rfl⟩
    | some hd =>
      cases hd2 : out.SPHdata with
      | none =>
        simp [readJamieSPH, read, emit, Exec.bind_eq, Exec.pure_eq, Exec.bind, Exec.pure,
          Exec.modify, Exec.assert, Exec.halt, hr, hh, hd2] at h
      | some sph =>
        simp only [readJamieSPH, read, emit, Exec.bind_eq, Exec.pure_eq, Exec.bind, Exec.pure,
          Exec.modify, Exec.assert, hr, hh, hd2, decide_True, if_true, Option.map_some',
          Option.isSome_some, Option.getD_some] at h
        split at h
        · split at h <;> simp at h
        · simp at h
  · simp [readJamieSPH, Exec.bind_eq, Exec.bind, Exec.assert, hr, Exec.halt] at h

theorem emits_pure {R α : Type} (P : Event → Prop) (a : α) :
    Emits P (Exec.pure a : Exec (ProgState R) α) :=
  fun s => ⟨[], by simp [Exec.pure, Result.state], by simp⟩

theorem emits_halt {R α : Type} (P : Event → Prop) (w : Halt) :
    Emits P (Exec.halt w : Exec (ProgState R) α) :=
  fun s => ⟨[], by simp [Exec.halt, Result.state], by simp⟩

theorem emits_assert {R : Type} (P : Event → Prop) (c : Bool) :
    Emits P (Exec.assert c : Exec (ProgState R) Unit) := by
  cases c
  · exact emits_halt P _
  · exact emits_pure P _

theorem emits_get {R : Type} (P : Event → Prop) :
    Emits P (Exec.get : Exec (ProgState R) (ProgState R)) :=
  fun s => ⟨[], by simp [Exec.get, Result.state], by simp⟩

theorem emits_modify {R : Type} (P : Event → Prop) (f : ProgState R → ProgState R)
    (hf : ∀ s, (f s).log = s.log) : Emits P (Exec.modify f) :=
  fun s => ⟨[], by simp [Exec.modify, Result.state, hf], by simp⟩

theorem emits_emit {R : Type} (P : Event → Prop) (e : Event) (he : P e) :
    Emits P (emit e : Exec (ProgState R) Unit) :=
  fun s => ⟨[e], by simp [Bonsai.emit, Exec.modify, Result.state], by simpa using he⟩

theorem emits_index {R α : Type} (P : Event → Prop) (xs : List α) (i : Nat) :
    Emits P (Exec.index xs i : Exec (ProgState R) α) := by
  unfold Exec.index
  cases xs.get? i
  · exact emits_halt P _
  · exact emits_pure P _

theorem emits_store {R : Type} (P : Event → Prop) (ip : Nat)
    (f : particle_t R → particle_t R) : Emits P (store ip f) := by
  intro s
  refine ⟨[], ?_, by simp⟩
  rw [store_eq]
  cases s.rData.data[ip]? <;> simp [Result.state]

theorem emits_typeAt {R : Type} (P : Event → Prop) (ip : Nat) :
    Emits P (typeAt ip : Exec (ProgState R) Nat) := by
  intro s
  refine ⟨[], ?_, by simp⟩
  unfold Bonsai.typeAt
  cases s.rData.data.get? ip <;> simp [Result.state]

theorem emits_bind {R α β : Type} (P : Event → Prop) (x : Exec (ProgState R) α)
    (f : α → Exec (ProgState R) β) (hx : Emits P x) (hf : ∀ a, Emits P (f a)) :
    Emits P (Exec.bind x f) := by
  intro s
  obtain ⟨e1, h1, p1⟩ := hx s
  unfold Exec.bind
  cases hxs : x s with
  | halt w s1 =>
    rw [hxs] at h1
    exact ⟨e1, h1, p1⟩
  | ok a s1 =>
    rw [hxs] at h1
    obtain ⟨e2, h2, p2⟩ := hf a s1
    refine ⟨e1 ++ e2, ?_, ?_⟩
    · simp only [Result.state] at h1
      simp only [h2, h1, List.append_assoc]
    · intro e he
      rcases List.mem_append.mp he with h | h
      · exact p1 e h
      · exact p2 e h

theorem emits_mono {R α : Type} (P Q : Event → Prop) (x : Exec (ProgState R) α)
    (hPQ : ∀ e, P e → Q e) (hx : Emits P x) : Emits Q x := by
  intro s
  obtain ⟨evs, h1, h2⟩ := hx s
  exact ⟨evs, h1, fun e he => hPQ e (h2 e he)⟩

theorem emits_forLoop {R : Type} (P : Event → Prop) (body : Nat → Exec (ProgState R) Unit)
    (hb : ∀ i, Emits P (body i)) : ∀ n i, Emits P (Exec.forLoop body n i) := by
  intro n
  induction n with
  | zero => intro i; exact emits_pure P _
  | succ n ih => intro i; exact emits_bind P _ _ (hb i) (fun _ => ih (i + 1))

theorem emits_read {R α : Type} (P : Event → Prop) (name : Dataset)
    (content : Option (List α)) (r : Int) (h : P (Event.read name r)) :
    Emits P (read name content r : Exec (ProgState R) (Option (List α))) :=
  emits_bind P _ _ (emits_emit P _ h) (fun _ => emits_pure P _)

theorem speciesBody_emits {R : Type} [Scalar R] (P : Event → Prop) (c off : Nat)
    (D : SpeciesData R) (i : Nat) : Emits P (speciesBody c off D i) := by
  unfold speciesBody
  simp only [Exec.bind_eq, Exec.pure_eq]
  refine emits_bind P _ _ (emits_index P _ _) (fun pos => ?_)
  refine emits_bind P _ _ (emits_index P _ _) (fun id => ?_)
  refine emits_bind P _ _ (emits_store P _ _) (fun _ => ?_)
  refine emits_bind P _ _ (emits_typeAt P _) (fun t => ?_)
  refine emits_bind P _ _ (emits_assert P _) (fun _ => ?_)
  refine emits_bind P _ _ (emits_index P _ _) (fun vel => ?_)
  refine emits_bind P _ _ (emits_store P _ _) (fun _ => ?_)
  split
  · exact emits_bind P _ _ (emits_index P _ _) (fun _ => emits_store P _ _)
  · exact emits_store P _ _

theorem readBonsaiStars_emits {R : Type} (out : BonsaiFile R) (r : Int) :
    Emits (fun e => 0 < r ∧ IsStarsRead e) (readBonsaiStars out r) := by
  unfold readBonsaiStars
  simp only [Exec.bind_eq, Exec.pure_eq]
  split
  next hr =>
    have hP : ∀ name, (name = Dataset.StarsIDType ∨ name = Dataset.StarsPOS ∨
        name = Dataset.StarsVEL ∨ name = Dataset.StarsRHOH) →
        (fun e => 0 < r ∧ IsStarsRead e) (Event.read name r) := by
      intro name hn
      refine ⟨hr, r, ?_⟩
      rcases hn with h | h | h | h <;> simp [h]
    refine emits_bind _ _ _ (emits_read _ _ _ _ (hP _ (by simp))) (fun o => ?_)
    split
    · exact emits_pure _ _
    · refine emits_bind _ _ _ (emits_read _ _ _ _ (hP _ (by simp))) (fun _ => ?_)
      refine emits_bind _ _ _ (emits_assert _ _) (fun _ => ?_)
      refine emits_bind _ _ _ (emits_read _ _ _ _ (hP _ (by simp))) (fun _ => ?_)
      refine emits_bind _ _ _ (emits_assert _ _) (fun _ => ?_)
      refine emits_bind _ _ _ (emits_read _ _ _ _ (hP _ (by simp))) (fun _ => ?_)
      refine emits_bind _ _ _ (emits_assert _ _) (fun _ => ?_)
      refine emits_bind _ _ _ (emits_assert _ _) (fun _ => ?_)
      split
      · exact emits_bind _ _ _ (emits_assert _ _) (fun _ => emits_pure _ _)
      · exact emits_bind _ _ _ (emits_pure _ _) (fun _ => emits_pure _ _)
  next => exact emits_pure _ _

theorem readBonsaiDM_emits {R : Type} (out : BonsaiFile R) (r : Int)
    (S : SpeciesData R) :
    Emits (fun e => 0 < r ∧ IsDMRead e) (readBonsaiDM out r S) := by
  unfold readBonsaiDM
  simp only [Exec.bind_eq, Exec.pure_eq]
  split
  next hr =>
    have hP : ∀ name, (name = Dataset.DMIDType ∨ name = Dataset.DMPOS ∨
        name = Dataset.DMVEL ∨ name = Dataset.DMRHOH) →
        (fun e => 0 < r ∧ IsDMRead e) (Event.read name r) := by
      intro name hn
      refine ⟨hr, r, ?_⟩
      rcases hn with h | h | h | h <;> simp [h]
    refine emits_bind _ _ _ (emits_read _ _ _ _ (hP _ (by simp))) (fun o => ?_)
    split
    · exact emits_pure _ _
    · refine emits_bind _ _ _ (emits_read _ _ _ _ (hP _ (by simp))) (fun _ => ?_)
      refine emits_bind _ _ _ (emits_assert _ _) (fun _ => ?_)
      refine emits_bind _ _ _ (emits_read _ _ _ _ (hP _ (by simp))) (fun _ => ?_)
      refine emits_bind _ _ _ (emits_assert _ _) (fun _ => ?_)
      refine emits_bind _ _ _ (emits_read _ _ _ _ (hP _ (by simp))) (fun _ => ?_)
      refine emits_bind _ _ _ (emits_assert _ _) (fun _ => ?_)
      refine emits_bind _ _ _ (emits_assert _ _) (fun _ => ?_)
      split
      · exact emits_bind _ _ _ (emits_assert _ _) (fun _ => emits_pure _ _)
      · exact emits_bind _ _ _ (emits_pure _ _) (fun _ => emits_pure _ _)
  next => exact emits_pure _ _

theorem readBonsai_emits {R : Type} [Scalar R] (junk : Nat → particle_t R) (out : BonsaiFile R)
    (rDM rS : Int) :
    Emits (fun e => (0 < rS ∧ IsStarsRead e) ∨ (0 < rDM ∧ IsDMRead e))
      (readBonsai junk out rDM rS) := by
  unfold readBonsai
  simp only [Exec.bind_eq, Exec.pure_eq, starBody_eq, dmBody_eq]
  refine emits_bind _ _ _
    (emits_mono _ _ _ (fun e he => Or.inl he) (readBonsaiStars_emits out rS)) (fun o => ?_)
  split
  · exact emits_pure _ _
  · refine emits_bind _ _ _
      (emits_mono _ _ _ (fun e he => Or.inr he) (readBonsaiDM_emits out rDM _)) (fun o => ?_)
    split
    · exact emits_pure _ _
    · refine emits_bind _ _ _ (emits_modify _ _ (fun _ => rfl)) (fun _ => ?_)
      refine emits_bind _ _ _ (emits_forLoop _ _ (fun i => speciesBody_emits _ _ _ _ i) _ _)
        (fun _ => ?_)
      refine emits_bind _ _ _ (emits_forLoop _ _ (fun i => speciesBody_emits _ _ _ _ i) _ _)
        (fun _ => ?_)
      exact emits_bind _ _ _ (emits_get _) (fun _ => emits_pure _ _)

theorem keeps_pure {R α : Type} (a : α) : Keeps (Exec.pure a : Exec (ProgState R) α) :=
  fun _ => ⟨rfl, rfl⟩

theorem keeps_halt {R α : Type} (w : Halt) : Keeps (Exec.halt w : Exec (ProgState R) α) :=
  fun _ => ⟨rfl, rfl⟩

theorem keeps_assert {R : Type} (c : Bool) : Keeps (Exec.assert c : Exec (ProgState R) Unit) := by
  cases c
  · exact keeps_halt _
  · exact keeps_pure _

theorem keeps_store {R : Type} (ip : Nat) (f : particle_t R → particle_t R) :
    Keeps (store ip f) := by
  intro s
  rw [store_eq]
  cases s.rData.data[ip]? <;> simp [Result.state]

theorem keeps_typeAt {R : Type} (ip : Nat) : Keeps (typeAt ip : Exec (ProgState R) Nat) := by
  intro s
  unfold Bonsai.typeAt
  cases s.rData.data.get? ip <;> simp [Result.state]

theorem keeps_emit {R : Type} (e : Event) : Keeps (emit e : Exec (ProgState R) Unit) :=
  fun _ => ⟨rfl, rfl⟩

theorem keeps_bind {R α β : Type} (x : Exec (ProgState R) α) (f : α → Exec (ProgState R) β)
    (hx : Keeps x) (hf : ∀ a, Keeps (f a)) : Keeps (Exec.bind x f) := by
  intro s
  obtain ⟨h1, h2⟩ := hx s
  unfold Exec.bind
  cases hxs : x s with
  | halt w s1 =>
    rw [hxs] at h1 h2
    exact ⟨h1, h2⟩
  | ok a s1 =>
    rw [hxs] at h1 h2
    obtain ⟨h3, h4⟩ := hf a s1
    exact ⟨h3.trans h1, h4.trans h2⟩

theorem fetchLoop_keeps {R : Type} [Scalar R] (data : List (BonsaiSharedQuickData R)) :
    ∀ ip, Keeps (fetchLoop data ip) := by
  induction data with
  | nil => intro ip; exact keeps_pure _
  | cons e rest ih =>
    intro ip
    unfold fetchLoop
    split
    · exact ih _
    · refine keeps_bind _ _ (keeps_store _ _) (fun _ => ?_)
      refine keeps_bind _ _ (keeps_typeAt _) (fun _ => ?_)
      refine keeps_bind _ _ (keeps_assert _) (fun _ => ?_)
      exact keeps_bind _ _ (keeps_store _ _) (fun _ => ih _)

theorem fetchSharedData_unchanged {R : Type} [Scalar R] (junk : Nat → particle_t R)
    (header : BonsaiSharedQuickHeader R) (data : List (BonsaiSharedQuickData R))
    (s : ProgState R) (hnew : s.rData.isNewData = false) (ht : header.tCurrent = s.tLast) :
    fetchSharedData junk header data s =
      Result.ok ()
        { s with log := s.log ++ [Event.acquireLockHeader, Event.releaseLockHeader] } := by
  simp [fetchSharedData, Exec.bind_eq, Exec.pure_eq, Exec.bind, Exec.get, Exec.assert, hnew, ht,
    emit, Exec.modify, Exec.pure]

theorem fetchSharedData_flagged {R : Type} [Scalar R] (junk : Nat → particle_t R)
    (header : BonsaiSharedQuickHeader R) (data : List (BonsaiSharedQuickData R))
    (s : ProgState R) (hnew : s.rData.isNewData = true) :
    fetchSharedData junk header data s = Result.halt Halt.assertFailed s := by
  simp [fetchSharedData, Exec.bind_eq, Exec.bind, Exec.get, Exec.assert, hnew, Exec.halt]

theorem fetchSharedData_ok {R : Type} [Scalar R] (junk : Nat → particle_t R)
    (header : BonsaiSharedQuickHeader R) (data : List (BonsaiSharedQuickData R))
    (s s1 : ProgState R) (h : fetchSharedData junk header data s = Result.ok () s1) :
    s.rData.isNewData = false ∧ s1.rData.isNewData = false ∧ s1.tLast = header.tCurrent := by
  cases hnew : s.rData.isNewData with
  | true => rw [fetchSharedData_flagged junk header data s hnew] at h; simp at h
  | false =>
    by_cases ht : header.tCurrent = s.tLast
    · rw [fetchSharedData_unchanged junk header data s hnew ht] at h
      simp only [Result.ok.injEq, true_and] at h
      subst h
      exact ⟨rfl, hnew, ht.symm⟩
    · by_cases hn : data.length = header.nBodies
      · simp only [fetchSharedData, Exec.bind_eq, Exec.pure_eq, Exec.bind, Exec.get, Exec.assert,
          hnew, ht, emit, Exec.modify, Exec.pure, hn, Bool.not_false, if_true, ne_eq,
          not_false_eq_true, beq_self_eq_true] at h
        generalize hs3 : ProgState.mk (s.rData.resize junk
          (header.nBodies - List.countP (fun e => decide (e.rho = 0)) data)) header.tCurrent
          ((s.log ++ [Event.acquireLockHeader]) ++ [Event.acquireLockData]) = s3 at h
        have hk := fetchLoop_keeps data 0 s3
        cases hL : fetchLoop data 0 s3 with
        | halt w s4 => simp [hL] at h
        | ok u s4 =>
          rw [hL] at hk
          simp only [hL, Result.ok.injEq, true_and] at h
          subst h
          simp only [Result.state] at hk
          refine ⟨rfl, ?_, ?_⟩
          · simp only [RendererData.isNewData, hk.1, ← hs3, RendererData.resize]
            exact hnew
          · simp only [hk.2, ← hs3]
      · simp [fetchSharedData, Exec.bind_eq, Exec.pure_eq, Exec.bind, Exec.get, Exec.assert,
          hnew, ht, emit, Exec.modify, Exec.pure, hn, Exec.halt] at h

theorem fetchSharedData_mismatch {R : Type} [Scalar R] (junk : Nat → particle_t R)
    (header : BonsaiSharedQuickHeader R) (data : List (BonsaiSharedQuickData R))
    (s : ProgState R) (ht : header.tCurrent ≠ s.tLast) (hn : data.length ≠ header.nBodies) :
    fetchSharedData junk header data s =
      Result.halt Halt.assertFailed
        (if s.rData.isNewData then s
         else { s with tLast := header.tCurrent,
                       log := s.log ++ [Event.acquireLockHeader, Event.acquireLockData] }) := by
  cases hnew : s.rData.isNewData
  · simp [fetchSharedData, Exec.bind_eq, Exec.pure_eq, Exec.bind, Exec.get, Exec.assert, hnew,
      ht, hn, emit, Exec.modify, Exec.pure, Exec.halt]
  · simp [fetchSharedData, Exec.bind_eq, Exec.pure_eq, Exec.bind, Exec.get, Exec.assert, hnew,
      Exec.halt]

theorem readBonsai_none {R : Type} [Scalar R] (junk : Nat → particle_t R) (out : BonsaiFile R)
    (rDM rS : Int) (s s1 : ProgState R)
    (h : readBonsai junk out rDM rS s = Result.ok none s1) :
    s1.rData = s.rData ∧
      ((0 < rS ∧ out.StarsIDType = none) ∨ (0 < rDM ∧ out.DMIDType = none)) := by
  simp only [readBonsai, Exec.bind_eq, Exec.pure_eq, Exec.bind] at h
  cases hS : readBonsaiStars out rS s with
  | halt w s2 => simp [hS] at h
  | ok oS s2 =>
    cases oS with
    | none =>
      simp only [hS, Exec.pure, Result.ok.injEq, true_and] at h
      subst h
      obtain ⟨a1, a2, a3, -⟩ := readBonsaiStars_none out rS s s2 hS
      exact ⟨a3, Or.inl ⟨a1, a2⟩⟩
    | some S =>
      simp only [hS, Exec.bind] at h
      obtain ⟨-, c2, -⟩ := readBonsaiStars_some out rS s s2 S hS
      cases hD : readBonsaiDM out rDM S s2 with
      | halt w s3 => simp [hD] at h
      | ok oD s3 =>
        cases oD with
        | none =>
          simp only [hD, Exec.pure, Result.ok.injEq, true_and] at h
          subst h
          obtain ⟨a1, a2, a3, -⟩ := readBonsaiDM_none out rDM S s2 s3 hD
          exact ⟨a3.trans c2, Or.inr ⟨a1, a2⟩⟩
        | some DM =>
          simp only [hD, Exec.bind, Exec.modify] at h
          split at h
          · split at h
            · simp [Exec.get, Exec.pure, Exec.bind] at h
            · simp at h
          · simp at h

theorem mainLoad_file {R : Type} [Scalar R] (junk : Nat → particle_t R)
    (fs : String → BonsaiFile R) (header : BonsaiSharedQuickHeader R)
    (data : List (BonsaiSharedQuickData R)) (opt : Options) (s : ProgState R)
    (hopt : opt.hasOptions = true) (hhelp : opt.help = false) (hfile : opt.inSitu = false)
    (hname : opt.fileName.isEmpty = false) (hDM : 0 ≤ opt.reduceDM) (hS : 0 ≤ opt.reduceS) :
    mainLoad junk fs header data opt s =
      match readBonsai junk (fs opt.fileName) opt.reduceDM opt.reduceS
          { s with log := s.log ++ [Event.readBonsai opt.fileName opt.reduceDM opt.reduceS] } with
      | Result.halt w s1 => Result.halt w s1
      | Result.ok (some d) s1 => Result.ok () { s1 with rData := d }
      | Result.ok none s1 =>
        match readJamieSPH junk (fs opt.fileName) opt.reduceS
            { s1 with log := s1.log ++ [Event.readJamieSPH opt.fileName opt.reduceS] } with
        | Result.halt w s2 => Result.halt w s2
        | Result.ok (some d) s2 => Result.ok () { s2 with rData := d }
        | Result.ok none s2 =>
          Result.halt (Halt.exit (-1)) { s2 with log := s2.log ++ [Event.MPI_Finalize] } := by
  have h1 : ¬ opt.reduceDM < 0 := by omega
  have h2 : ¬ opt.reduceS < 0 := by omega
  simp only [mainLoad, Exec.bind_eq, Exec.pure_eq, Exec.bind, hopt, hhelp, hfile, hname, h1, h2,
    Bool.not_true, Bool.or_self, Bool.false_eq_true, if_false, Exec.pure, emit, Exec.modify,
    Bool.not_false, Bool.and_true, decide_False, Bool.or_false]
  cases hB : readBonsai junk (fs opt.fileName) opt.reduceDM opt.reduceS
      { s with log := s.log ++ [Event.readBonsai opt.fileName opt.reduceDM opt.reduceS] } with
  | halt w s1 => rfl
  | ok o s1 =>
    cases o with
    | some d => rfl
    | none =>
      simp only [Exec.bind, Exec.modify]
      cases hJ : readJamieSPH junk (fs opt.fileName) opt.reduceS
          { s1 with log := s1.log ++ [Event.readJamieSPH opt.fileName opt.reduceS] } with
      | halt w s2 => rfl
      | ok o2 s2 =>
        cases o2 with
        | some d => rfl
        | none => rfl

theorem everyNthFrom_length_congr {α β : Type} (r : Nat) :
    ∀ (l1 : List α) (l2 : List β) (k : Nat), l1.length = l2.length →
      (everyNthFrom r k l1).length = (everyNthFrom r k l2).length := by
  intro l1
  induction l1 with
  | nil =>
    intro l2 k h
    cases l2 with
    | nil => cases k <;> simp [everyNthFrom]
    | cons b l2 => simp at h
  | cons a l1 ih =>
    intro l2 k h
    cases l2 with
    | nil => simp at h
    | cons b l2 =>
      have h' : l1.length = l2.length := by simpa using h
      cases k with
      | zero => simp [everyNthFrom, ih l2 _ h']
      | succ k => simp [everyNthFrom, ih l2 _ h']

theorem everyNthFrom_mem {α : Type} (r : Nat) (x : α) :
    ∀ (l : List α) (k : Nat), x ∈ everyNthFrom r k l → x ∈ l := by
  intro l
  induction l with
  | nil => intro k h; cases k <;> simp [everyNthFrom] at h
  | cons a l ih =>
    intro k h
    cases k with
    | zero =>
      simp only [everyNthFrom, List.mem_cons] at h
      rcases h with h | h
      · exact h ▸ List.mem_cons_self _ _
      · exact List.mem_cons_of_mem _ (ih _ h)
    | succ k =>
      simp only [everyNthFrom] at h
      exact List.mem_cons_of_mem _ (ih _ h)

theorem wellFormed_retained {R : Type} (c : Nat) (ids : Option (List IDType))
    (pos : Option (List (float4 R))) (vel : Option (List (float3 R)))
    (rhoh : Option (List (float2 R))) (r : Int)
    (hwf : WellFormedSpecies c ids pos vel rhoh) :
    (retained pos r).length = (retained ids r).length ∧
    (retained vel r).length = (retained ids r).length ∧
    (retained rhoh r = [] ∨ (retained rhoh r).length = (retained ids r).length) ∧
    ∀ x ∈ retained ids r, x.getType = c := by
  obtain ⟨i, p, v, hi, hp, hv, hpl, hvl, hrh, hty⟩ := hwf
  subst hi hp hv
  by_cases hr : r > 0
  · refine ⟨?_, ?_, ?_, ?_⟩
    · simp only [retained, hr, if_true, Option.map_some', Option.getD_some, everyNth]
      exact everyNthFrom_length_congr _ _ _ _ hpl
    · simp only [retained, hr, if_true, Option.map_some', Option.getD_some, everyNth]
      exact everyNthFrom_length_congr _ _ _ _ hvl
    · rcases hrh with h | ⟨rh, h, hl⟩
      · left; simp [retained, h]
      · right
        subst h
        simp only [retained, hr, if_true, Option.map_some', Option.getD_some, everyNth]
        exact everyNthFrom_length_congr _ _ _ _ hl
    · intro x hx
      simp only [retained, hr, if_true, Option.map_some', Option.getD_some, everyNth] at hx
      exact hty x (everyNthFrom_mem _ _ _ _ hx)
  · simp [retained, hr]

theorem readBonsaiStars_wf {R : Type} (out : BonsaiFile R) (r : Int) (s : ProgState R)
    (hr : 0 < r)
    (hwf : WellFormedSpecies 1 out.StarsIDType out.StarsPOS out.StarsVEL out.StarsRHOH) :
    readBonsaiStars out r s =
      Result.ok (some (retainedStars out r))
        { s with log := s.log ++
            [Event.read Dataset.StarsIDType r, Event.read Dataset.StarsPOS r,
             Event.read Dataset.StarsVEL r, Event.read Dataset.StarsRHOH r] } := by
  obtain ⟨h1, h2, -, -⟩ := wellFormed_retained 1 _ _ _ _ r hwf
  obtain ⟨i, p, v, hi, hp, hv, -, -, hrh, -⟩ := hwf
  simp only [retained, hr, gt_iff_lt, if_true, hi, hp, hv, Option.map_some',
    Option.getD_some] at h1 h2
  have e1 : ((everyNth r.toNat i).length == (everyNth r.toNat p).length) = true := by
    simp [h1]
  have e2 : ((everyNth r.toNat i).length == (everyNth r.toNat v).length) = true := by
    simp [h2]
  rcases hrh with h | ⟨rh, h, -⟩
  · simp only [readBonsaiStars, read, emit, Exec.bind_eq, Exec.pure_eq, Exec.bind, Exec.pure,
      Exec.modify, Exec.assert, hr, gt_iff_lt, if_true, hi, hp, hv, h, Option.map_some',
      Option.map_none', Option.isSome_some, Option.isSome_none, Option.getD_some,
      Option.getD_none, e1, e2, retainedStars, retained, List.append_assoc,
      List.cons_append, List.nil_append, Bool.false_eq_true, if_false]
  · simp only [readBonsaiStars, read, emit, Exec.bind_eq, Exec.pure_eq, Exec.bind, Exec.pure,
      Exec.modify, Exec.assert, hr, gt_iff_lt, if_true, hi, hp, hv, h, Option.map_some',
      Option.isSome_some, Option.getD_some, e1, e2, retainedStars, retained,
      List.append_assoc, List.cons_append, List.nil_append]

theorem readBonsaiDM_wf {R : Type} (out : BonsaiFile R) (r : Int) (S : SpeciesData R)
    (s : ProgState R) (hr : 0 < r)
    (hSp : S.IDList.length = S.pos.length) (hSv : S.IDList.length = S.vel.length)
    (hwf : WellFormedSpecies 0 out.DMIDType out.DMPOS out.DMVEL out.DMRHOH) :
    readBonsaiDM out r S s =
      Result.ok (some (retainedDM out r))
        { s with log := s.log ++
            [Event.read Dataset.DMIDType r, Event.read Dataset.DMPOS r,
             Event.read Dataset.DMVEL r, Event.read Dataset.DMRHOH r] } := by
  obtain ⟨i, p, v, hi, hp, hv, -, -, hrh, -⟩ := hwf
  have e1 : (S.IDList.length == S.pos.length) = true := by simp [hSp]
  have e2 : (S.IDList.length == S.vel.length) = true := by simp [hSv]
  rcases hrh with h | ⟨rh, h, -⟩
  · simp only [readBonsaiDM, read, emit, Exec.bind_eq, Exec.pure_eq, Exec.bind, Exec.pure,
      Exec.modify, Exec.assert, hr, gt_iff_lt, if_true, hi, hp, hv, h, Option.map_some',
      Option.map_none', Option.isSome_some, Option.isSome_none, Option.getD_some,
      Option.getD_none, e1, e2, retainedDM, retained, List.append_assoc,
      List.cons_append, List.nil_append, Bool.false_eq_true, if_false]
  · simp only [readBonsaiDM, read, emit, Exec.bind_eq, Exec.pure_eq, Exec.bind, Exec.pure,
      Exec.modify, Exec.assert, hr, gt_iff_lt, if_true, hi, hp, hv, h, Option.map_some',
      Option.isSome_some, Option.getD_some, e1, e2, retainedDM, retained,
      List.append_assoc, List.cons_append, List.nil_append]

theorem readBonsaiStars_off {R : Type} (out : BonsaiFile R) (s : ProgState R) :
    readBonsaiStars out 0 s = Result.ok (some (SpeciesData.unread R)) s := by
  simp [readBonsaiStars, Exec.pure_eq, Exec.pure]

theorem readBonsaiDM_off {R : Type} (out : BonsaiFile R) (S : SpeciesData R)
    (s : ProgState R) :
    readBonsaiDM out 0 S s = Result.ok (some (SpeciesData.unread R)) s := by
  simp [readBonsaiDM, Exec.pure_eq, Exec.pure]

theorem readBonsai_total {R : Type} [Scalar R] (junk : Nat → particle_t R) (out : BonsaiFile R)
    (rDM rS : Int) (s s1 s2 : ProgState R) (S DM : SpeciesData R)
    (hS : readBonsaiStars out rS s = Result.ok (some S) s1)
    (hD : readBonsaiDM out rDM S s1 = Result.ok (some DM) s2)
    (hSp : S.IDList.length ≤ S.pos.length) (hSv : S.IDList.length ≤ S.vel.length)
    (hSr : S.rhoh = [] ∨ S.IDList.length ≤ S.rhoh.length)
    (hSt : ∀ x ∈ S.IDList, x.getType = 1)
    (hDp : DM.IDList.length ≤ DM.pos.length) (hDv : DM.IDList.length ≤ DM.vel.length)
    (hDr : DM.rhoh = [] ∨ DM.IDList.length ≤ DM.rhoh.length)
    (hDt : ∀ x ∈ DM.IDList, x.getType = 0) :
    ∃ d s', readBonsai junk out rDM rS s = Result.ok (some d) s' := by
  obtain ⟨s4, hL1⟩ := speciesLoop_total 1 0 S hSp hSv hSr hSt S.IDList.length 0
    (ProgState.mk ((RendererData.fresh R).resize junk (S.IDList.length + DM.IDList.length))
      s2.tLast s2.log) (by omega) (by simp [RendererData.resize])
  obtain ⟨-, -, -, a4, -, -⟩ := speciesLoop_ok _ _ _ _ _ _ _ hL1
  obtain ⟨s5, hL2⟩ := speciesLoop_total 0 S.IDList.length DM hDp hDv hDr hDt DM.IDList.length 0
    s4 (by omega) (by rw [a4]; simp [RendererData.resize]; omega)
  exact ⟨s5.rData, s5, by
    simp [readBonsai, Exec.bind_eq, Exec.pure_eq, Exec.bind, Exec.pure, Exec.modify, Exec.get,
      hS, hD, starBody_eq, dmBody_eq, hL1, hL2]⟩

theorem readBonsai_some_mem {R : Type} [Scalar R] (junk : Nat → particle_t R)
    (out : BonsaiFile R) (rDM rS : Int) (s s' : ProgState R) (d : RendererData R)
    (h : readBonsai junk out rDM rS s = Result.ok (some d) s') :
    ∀ p ∈ d.data,
      (p.type = 1 ∧ 0 < (retainedStars out rS).IDList.length) ∨
      (p.type = 0 ∧ 0 < (retainedDM out rDM).IDList.length) := by
  obtain ⟨-, -, h3, h4, h5⟩ := readBonsai_some junk out rDM rS s s' d h
  intro p hp
  obtain ⟨k, hk, hkp⟩ := List.getElem_of_mem hp
  have hk2 : d.data[k]? = some p := by rw [List.getElem?_eq_getElem hk, hkp]
  by_cases hlt : k < (retainedStars out rS).IDList.length
  · obtain ⟨q, hq, hel⟩ := h4 k hlt
    rw [hk2] at hq
    cases hq
    obtain ⟨_, _, _, _, _, _, _, _, _, _, ht, _⟩ := hel
    exact Or.inl ⟨ht, by omega⟩
  · have hj : k - (retainedStars out rS).IDList.length < (retainedDM out rDM).IDList.length := by
      omega
    obtain ⟨q, hq, hel⟩ := h5 _ hj
    rw [show (retainedStars out rS).IDList.length + (k - (retainedStars out rS).IDList.length) = k
      by omega, hk2] at hq
    cases hq
    obtain ⟨_, _, _, _, _, _, _, _, _, _, ht, _⟩ := hel
    exact Or.inr ⟨ht, by omega⟩

theorem isDMRead_not_stars (e : Event) (h : IsDMRead e) : ¬ IsStarsRead e := by
  rintro ⟨r2, h2⟩
  obtain ⟨r1, h1⟩ := h
  rcases h1 with h1 | h1 | h1 | h1 <;> subst h1 <;> simp at h2

theorem isStarsRead_not_dm (e : Event) (h : IsStarsRead e) : ¬ IsDMRead e :=
  fun h2 => isDMRead_not_stars e h2 h

/-! ## The claims -/

/-- C1 (failing input): on a Data array with densities `[1, 0, 3, 0, 2]` and a
changed timestamp, `fetchSharedData` resizes the set to 3 particles, writes
entry 0 at index 0 and entry 2 at index 2, leaves index 1 with the unpopulated
content of the resize, and then uses index 4 of the 3-element arrays for entry
4: the write index advances on skipped entries too. -/
theorem C1_fetchSharedData_density_filter_failing_input :
    fetchSharedData junkInt { tCurrent := 0, nBodies := 5 } dataC1 startState =
      Result.halt Halt.outOfBounds
        { rData := { data := [particleOf 0 1, junkInt 1, particleOf 2 3], new_data := false },
          tLast := 0,
          log := [Event.acquireLockHeader, Event.acquireLockData] } := by
  decide

/-- C2 (failing inputs): `readBonsai` returns a ParticleSet, without any
assertion failing, (a) for DarkMatter read from a file with one DM identifier
and two DM positions, and (b) for Stars read from a file with one identifier
and two density records. -/
theorem C2_readBonsai_count_mismatch_failing_input :
    readBonsai junkInt fileDMMismatch 1 0 startState =
      Result.ok
        (some { data := [{ posx := 1, posy := 2, posz := 3, ID := 5, type := 0, mass := 0,
                           vel := 5, rho := 0, h := 0 }],
                new_data := false })
        { rData := { data := [{ posx := 1, posy := 2, posz := 3, ID := 5, type := 0, mass := 0,
                                vel := 5, rho := 0, h := 0 }],
                     new_data := false },
          tLast := -1,
          log := [Event.read Dataset.DMIDType 1, Event.read Dataset.DMPOS 1,
                  Event.read Dataset.DMVEL 1, Event.read Dataset.DMRHOH 1] } ∧
    readBonsai junkInt fileStarsRhohMismatch 0 1 startState =
      Result.ok
        (some { data := [{ posx := 1, posy := 2, posz := 3, ID := 6, type := 1, mass := 0,
                           vel := 5, rho := 8, h := 9 }],
                new_data := false })
        { rData := { data := [{ posx := 1, posy := 2, posz := 3, ID := 6, type := 1, mass := 0,
                                vel := 5, rho := 8, h := 9 }],
                     new_data := false },
          tLast := -1,
          log := [Event.read Dataset.StarsIDType 1, Event.read Dataset.StarsPOS 1,
                  Event.read Dataset.StarsVEL 1, Event.read Dataset.StarsRHOH 1] } := by
  constructor <;> decide

/-- C10 (failing input): the run `--infile snap --reduceS 0` on a legacy file
passes the option validation, the generic reader returns `NULL` because the
file has no DM identifiers, and `readJamieSPH` is called with `reduceS = 0`:
its assertion `reduceS > 0` fails. -/
theorem C10_mainLoad_legacy_reduceS_zero_failing_input :
    mainLoad junkInt (fun _ => fileSPH) { tCurrent := 0, nBodies := 0 } [] optsReduceS0
        startState =
      Result.halt Halt.assertFailed
        { rData := RendererData.fresh Int, tLast := -1,
          log := [Event.readBonsai "snap" 10 0, Event.read Dataset.DMIDType 10,
                  Event.readJamieSPH "snap" 0] } := by
  decide

/-- C7: whenever the Header timestamp differs from the last seen one and the
Data slot's length differs from the Header's declared body count,
`fetchSharedData` halts on a failed assertion, and the ParticleSet in the
state it halts in is the one it was called with: nothing was resized or
written. -/
theorem C7_fetchSharedData_length_mismatch_aborts {R : Type} [Scalar R]
    (junk : Nat → particle_t R) (header : BonsaiSharedQuickHeader R)
    (data : List (BonsaiSharedQuickData R)) (s : ProgState R)
    (ht : header.tCurrent ≠ s.tLast) (hn : data.length ≠ header.nBodies) :
    ∃ s', fetchSharedData junk header data s = Result.halt Halt.assertFailed s' ∧
      s'.rData = s.rData := by
  refine ⟨_, fetchSharedData_mismatch junk header data s ht hn, ?_⟩
  cases s.rData.isNewData <;> rfl

/-- C7 at a concrete input: declared count 1000, observed length 900, changed
timestamp. -/
theorem C7_witness :
    (0 : Int) ≠ startState.tLast ∧ (List.replicate 900 (entry 0 1)).length ≠ 1000 ∧
    ∃ s', fetchSharedData junkInt { tCurrent := 0, nBodies := 1000 }
        (List.replicate 900 (entry 0 1)) startState = Result.halt Halt.assertFailed s' ∧
      s'.rData = startState.rData :=
  ⟨by decide, by rw [List.length_replicate]; omega,
    C7_fetchSharedData_length_mismatch_aborts junkInt { tCurrent := 0, nBodies := 1000 }
      (List.replicate 900 (entry 0 1)) startState (by decide)
      (by rw [List.length_replicate]; decide)⟩

/-- C4 (counterexample): in a state whose "new data" flag is up, with the
Header timestamp equal to the last seen one, the call does not return and
takes no lock at all: its entry assertion `!rData.isNewData()` fails. -/
theorem C4_counterexample :
    ({ tCurrent := 3, nBodies := 2 } : BonsaiSharedQuickHeader Int).tCurrent =
        flaggedState.tLast ∧
    fetchSharedData junkInt { tCurrent := 3, nBodies := 2 } [entry 0 1, entry 1 2] flaggedState =
      Result.halt Halt.assertFailed flaggedState := by
  decide

/-- C4 (amended): in every state whose "new data" flag is down (the entry
assertion of `fetchSharedData`) and in which the Header timestamp equals the
last seen one, the call returns, the ParticleSet and the last seen timestamp
are unchanged, and the only lock calls are the acquire and the release of the
Header lock; hence a second poll right after a poll that returned, with the
same Header, is such a no-op, whatever the Data slot holds. -/
theorem C4_fetchSharedData_unchanged_timestamp_noop {R : Type} [Scalar R]
    (junk : Nat → particle_t R) (header : BonsaiSharedQuickHeader R)
    (data data' : List (BonsaiSharedQuickData R)) (s s1 : ProgState R) :
    (s.rData.isNewData = false → header.tCurrent = s.tLast →
      fetchSharedData junk header data s =
        Result.ok ()
          { s with log := s.log ++ [Event.acquireLockHeader, Event.releaseLockHeader] }) ∧
    (fetchSharedData junk header data s = Result.ok () s1 →
      fetchSharedData junk header data' s1 =
        Result.ok ()
          { s1 with log := s1.log ++ [Event.acquireLockHeader, Event.releaseLockHeader] }) := by
  refine ⟨fetchSharedData_unchanged junk header data s, fun h => ?_⟩
  obtain ⟨-, h2, h3⟩ := fetchSharedData_ok junk header data s s1 h
  exact fetchSharedData_unchanged junk header data' s1 h2 h3.symm

/-- C4 at a concrete input: a poll of `polledState` with the Header still at
time 3 changes only the log, and so does a second poll after a first one that
rebuilt the set from a Header at time 4. -/
theorem C4_witness :
    fetchSharedData junkInt { tCurrent := 3, nBodies := 2 } [entry 0 1, entry 1 2] polledState =
      Result.ok ()
        { polledState with log := [Event.acquireLockHeader, Event.releaseLockHeader] } ∧
    fetchSharedData junkInt { tCurrent := 4, nBodies := 2 } []
        { rData := { data := [particleOf 0 1, particleOf 1 2], new_data := false },
          tLast := 4,
          log := [Event.acquireLockHeader, Event.acquireLockData, Event.releaseLockData,
                  Event.releaseLockHeader] } =
      Result.ok ()
        { rData := { data := [particleOf 0 1, particleOf 1 2], new_data := false },
          tLast := 4,
          log := [Event.acquireLockHeader, Event.acquireLockData, Event.releaseLockData,
                  Event.releaseLockHeader, Event.acquireLockHeader, Event.releaseLockHeader] } :=
  ⟨(C4_fetchSharedData_unchanged_timestamp_noop junkInt { tCurrent := 3, nBodies := 2 }
      [entry 0 1, entry 1 2] [] polledState polledState).1 (by decide) (by decide),
   (C4_fetchSharedData_unchanged_timestamp_noop junkInt { tCurrent := 4, nBodies := 2 }
      [entry 0 1, entry 1 2] [] polledState _).2 (by decide)⟩

/-- C5 (counterexample): `readJamieSPH` accepts the legacy file `fileSPH` with
factor 2 and tags both returned particles with species code 1, the code of
Star, not a code distinct from 0 and 1. -/
theorem C5_counterexample :
    readJamieSPH junkInt fileSPH 2 startState =
      Result.ok (some { data := particlesSPH, new_data := false })
        { rData := { data := particlesSPH, new_data := false }, tLast := -1,
          log := [Event.read Dataset.SPHheader 1, Event.read Dataset.SPHdata 2] } ∧
    particlesSPH.map (fun p => p.type) = [1, 1] := by
  decide

/-- C5 (amended): when `readJamieSPH` returns a ParticleSet, the set has as
many particles as records were retained, and for every `i` below that count
particle `i` has identifier `i` (not an identifier from the file), carries
species code 1, the code of Star, and holds the position, velocity magnitude,
density and smoothing length of retained record `i`. -/
theorem C5_readJamieSPH_sequential_ids_species_one {R : Type} [Scalar R]
    (junk : Nat → particle_t R) (out : BonsaiFile R) (reduceS : Int) (s s' : ProgState R)
    (d : RendererData R)
    (h : readJamieSPH junk out reduceS s = Result.ok (some d) s') :
    d.data.length = (retained out.SPHdata reduceS).length ∧
    ∀ i, i < (retained out.SPHdata reduceS).length →
      ∃ p e, d.data[i]? = some p ∧ (retained out.SPHdata reduceS)[i]? = some e ∧
        p.ID = i ∧ p.type = 1 ∧
        p.posx = e.x ∧ p.posy = e.y ∧ p.posz = e.z ∧ p.vel = vnorm e.vx e.vy e.vz ∧
        p.rho = e.rho ∧ p.h = e.hp := by
  obtain ⟨-, -, -, -, h5, h6⟩ := readJamieSPH_some junk out reduceS s s' d h
  exact ⟨h5, h6⟩

/-- C5 at a concrete input: the legacy file `fileSPH` read with factor 2. -/
theorem C5_witness :
    readJamieSPH junkInt fileSPH 2 startState =
      Result.ok (some { data := particlesSPH, new_data := false })
        { rData := { data := particlesSPH, new_data := false }, tLast := -1,
          log := [Event.read Dataset.SPHheader 1, Event.read Dataset.SPHdata 2] } ∧
    (particlesSPH.length = (retained fileSPH.SPHdata 2).length ∧
      ∀ i, i < (retained fileSPH.SPHdata 2).length →
        ∃ p e, particlesSPH[i]? = some p ∧ (retained fileSPH.SPHdata 2)[i]? = some e ∧
          p.ID = i ∧ p.type = 1 ∧
          p.posx = e.x ∧ p.posy = e.y ∧ p.posz = e.z ∧ p.vel = vnorm e.vx e.vy e.vz ∧
          p.rho = e.rho ∧ p.h = e.hp) :=
  ⟨by decide,
    C5_readJamieSPH_sequential_ids_species_one junkInt fileSPH 2 startState
      { rData := { data := particlesSPH, new_data := false }, tLast := -1,
        log := [Event.read Dataset.SPHheader 1, Event.read Dataset.SPHdata 2] }
      { data := particlesSPH, new_data := false } (by decide)⟩

/-- C8: in file mode with options that pass validation, `main` calls the
generic reader first.  (1) If it returns a ParticleSet, that set is the one
used and nothing but dataset reads was logged after the call: the legacy
reader is not called.  (2) If it returns `NULL`, an enabled species'
identifier dataset is missing, and the legacy reader is called on the file of
the same name with the same `reduceS`: a ParticleSet it returns is the one
used, and if it returns `NULL` too, `main` calls `MPI_Finalize` and then
`exit(-1)`, a non-zero status, with no ParticleSet built. -/
theorem C8_mainLoad_format_fallback {R : Type} [Scalar R] (junk : Nat → particle_t R)
    (fs : String → BonsaiFile R) (header : BonsaiSharedQuickHeader R)
    (data : List (BonsaiSharedQuickData R)) (opt : Options) (s : ProgState R)
    (hopt : opt.hasOptions = true) (hhelp : opt.help = false) (hfile : opt.inSitu = false)
    (hname : opt.fileName.isEmpty = false) (hDM : 0 ≤ opt.reduceDM) (hS : 0 ≤ opt.reduceS) :
    (∀ d s1,
      readBonsai junk (fs opt.fileName) opt.reduceDM opt.reduceS
          { s with log := s.log ++ [Event.readBonsai opt.fileName opt.reduceDM opt.reduceS] } =
        Result.ok (some d) s1 →
      mainLoad junk fs header data opt s = Result.ok () { s1 with rData := d } ∧
      ∃ evs, s1.log = s.log ++ Event.readBonsai opt.fileName opt.reduceDM opt.reduceS :: evs ∧
        ∀ e ∈ evs, ∃ ds r, e = Event.read ds r) ∧
    (∀ s1,
      readBonsai junk (fs opt.fileName) opt.reduceDM opt.reduceS
          { s with log := s.log ++ [Event.readBonsai opt.fileName opt.reduceDM opt.reduceS] } =
        Result.ok none s1 →
      ((0 < opt.reduceS ∧ (fs opt.fileName).StarsIDType = none) ∨
        (0 < opt.reduceDM ∧ (fs opt.fileName).DMIDType = none)) ∧
      (∀ w s2,
        readJamieSPH junk (fs opt.fileName) opt.reduceS
            { s1 with log := s1.log ++ [Event.readJamieSPH opt.fileName opt.reduceS] } =
          Result.halt w s2 →
        mainLoad junk fs header data opt s = Result.halt w s2) ∧
      (∀ d s2,
        readJamieSPH junk (fs opt.fileName) opt.reduceS
            { s1 with log := s1.log ++ [Event.readJamieSPH opt.fileName opt.reduceS] } =
          Result.ok (some d) s2 →
        mainLoad junk fs header data opt s = Result.ok () { s2 with rData := d }) ∧
      (∀ s2,
        readJamieSPH junk (fs opt.fileName) opt.reduceS
            { s1 with log := s1.log ++ [Event.readJamieSPH opt.fileName opt.reduceS] } =
          Result.ok none s2 →
        mainLoad junk fs header data opt s =
          Result.halt (Halt.exit (-1)) { s2 with log := s2.log ++ [Event.MPI_Finalize] } ∧
        (-1 : Int) ≠ 0 ∧ s2.rData = s.rData)) := by
  have hmain := mainLoad_file junk fs header data opt s hopt hhelp hfile hname hDM hS
  refine ⟨fun d s1 hB => ?_, fun s1 hB => ?_⟩
  · rw [hB] at hmain
    refine ⟨hmain, ?_⟩
    obtain ⟨evs, h1, h2⟩ := readBonsai_emits junk (fs opt.fileName) opt.reduceDM opt.reduceS
      { s with log := s.log ++ [Event.readBonsai opt.fileName opt.reduceDM opt.reduceS] }
    rw [hB] at h1
    refine ⟨evs, by simpa [Result.state] using h1, fun e he => ?_⟩
    rcases h2 e he with ⟨-, r, h | h | h | h⟩ | ⟨-, r, h | h | h | h⟩ <;> exact ⟨_, _, h⟩
  · rw [hB] at hmain
    obtain ⟨b1, b2⟩ := readBonsai_none junk (fs opt.fileName) opt.reduceDM opt.reduceS _ s1 hB
    refine ⟨b2, fun w s2 hJ => ?_, fun d s2 hJ => ?_, fun s2 hJ => ?_⟩
    · simpa [hJ] using hmain
    · simpa [hJ] using hmain
    · obtain ⟨-, -, j3, -⟩ := readJamieSPH_none junk (fs opt.fileName) opt.reduceS _ s2 hJ
      refine ⟨by simpa [hJ] using hmain, by decide, ?_⟩
      rw [j3]
      exact b1

/-- C8 at a concrete input: `--infile snap` on a file with no dataset: the
generic reader rejects (no Stars identifiers), the legacy reader rejects (no
header), and `main` shuts the runtime down and exits with status -1. -/
theorem C8_witness :
    (optsDefault.hasOptions = true ∧ optsDefault.help = false ∧ optsDefault.inSitu = false ∧
      optsDefault.fileName.isEmpty = false ∧ 0 ≤ optsDefault.reduceDM ∧
      0 ≤ optsDefault.reduceS) ∧
    mainLoad junkInt (fun _ => noFile) { tCurrent := 0, nBodies := 0 } [] optsDefault
        startState =
      Result.halt (Halt.exit (-1))
        { rData := RendererData.fresh Int, tLast := -1,
          log := [Event.readBonsai "snap" 10 1, Event.read Dataset.StarsIDType 1,
                  Event.readJamieSPH "snap" 1, Event.read Dataset.SPHheader 1,
                  Event.MPI_Finalize] } :=
  ⟨by decide,
    ((((C8_mainLoad_format_fallback junkInt (fun _ => noFile) { tCurrent := 0, nBodies := 0 } []
      optsDefault startState (by decide) (by decide) (by decide) (by decide) (by decide)
      (by decide)).2
      { rData := RendererData.fresh Int, tLast := -1,
        log := [Event.readBonsai "snap" 10 1, Event.read Dataset.StarsIDType 1] }
      (by decide)).2.2.2
      { rData := RendererData.fresh Int, tLast := -1,
        log := [Event.readBonsai "snap" 10 1, Event.read Dataset.StarsIDType 1,
                Event.readJamieSPH "snap" 1, Event.read Dataset.SPHheader 1] }
      (by decide)).1)⟩

/-- C9 (counterexample): with the Stars disabled (`reduceS = 0`) and the DM
identifier dataset present, `readBonsai` does not return a ParticleSet when the
DM position dataset is missing (assertion on the read), when a DM identifier
carries another species code (sanity-check assertion), or when there are fewer
DM positions than identifiers (index outside the position array). -/
theorem C9_counterexample :
    fileDMNoPos.DMIDType ≠ none ∧
    readBonsai junkInt fileDMNoPos 1 0 startState =
      Result.halt Halt.assertFailed
        { startState with
          log := [Event.read Dataset.DMIDType 1, Event.read Dataset.DMPOS 1] } ∧
    fileDMWrongCode.DMIDType ≠ none ∧
    readBonsai junkInt fileDMWrongCode 1 0 startState =
      Result.halt Halt.assertFailed
        { rData := { data := [{ posx := 1, posy := 2, posz := 3, ID := 5, type := 1, mass := 0,
                                vel := 0, rho := 0, h := 0 }],
                     new_data := false },
          tLast := -1,
          log := [Event.read Dataset.DMIDType 1, Event.read Dataset.DMPOS 1,
                  Event.read Dataset.DMVEL 1, Event.read Dataset.DMRHOH 1] } ∧
    fileDMShortPos.DMIDType ≠ none ∧
    readBonsai junkInt fileDMShortPos 1 0 startState =
      Result.halt Halt.outOfBounds
        { rData := { data := [{ posx := 1, posy := 2, posz := 3, ID := 5, type := 0, mass := 0,
                                vel := 5, rho := 0, h := 0 }, junkInt 1],
                     new_data := false },
          tLast := -1,
          log := [Event.read Dataset.DMIDType 1, Event.read Dataset.DMPOS 1,
                  Event.read Dataset.DMVEL 1, Event.read Dataset.DMRHOH 1] } := by
  decide

/-- C9 (amended): when the reduction factor of a species is 0, `readBonsai`
reads none of that species' datasets, whatever the file and the other factor,
and a ParticleSet it returns holds no particle of that species; and it does
return a ParticleSet, holding every retained element of the other species in
order, whenever the other species is enabled and well formed in the file: its
identifier, position and velocity datasets are present with equal element
counts, its density dataset is absent or of that count, and every identifier
carries that species' code.  Stated first for Stars disabled, then for
DarkMatter disabled. -/
theorem C9_readBonsai_reduction_zero_disables_species {R : Type} [Scalar R]
    (junk : Nat → particle_t R) (out : BonsaiFile R) (r : Int) (s : ProgState R) :
    ((∃ evs, (readBonsai junk out r 0 s).state.log = s.log ++ evs ∧
        ∀ e ∈ evs, ¬ IsStarsRead e) ∧
      (∀ d s', readBonsai junk out r 0 s = Result.ok (some d) s' →
        ∀ p ∈ d.data, p.type ≠ 1) ∧
      (0 < r → WellFormedSpecies 0 out.DMIDType out.DMPOS out.DMVEL out.DMRHOH →
        ∃ d s', readBonsai junk out r 0 s = Result.ok (some d) s' ∧
          d.data.length = (retainedDM out r).IDList.length ∧
          ∀ j, j < (retainedDM out r).IDList.length →
            ∃ p, d.data[j]? = some p ∧ IsElement 0 (retainedDM out r) j p)) ∧
    ((∃ evs, (readBonsai junk out 0 r s).state.log = s.log ++ evs ∧
        ∀ e ∈ evs, ¬ IsDMRead e) ∧
      (∀ d s', readBonsai junk out 0 r s = Result.ok (some d) s' →
        ∀ p ∈ d.data, p.type ≠ 0) ∧
      (0 < r → WellFormedSpecies 1 out.StarsIDType out.StarsPOS out.StarsVEL out.StarsRHOH →
        ∃ d s', readBonsai junk out 0 r s = Result.ok (some d) s' ∧
          d.data.length = (retainedStars out r).IDList.length ∧
          ∀ i, i < (retainedStars out r).IDList.length →
            ∃ p, d.data[i]? = some p ∧ IsElement 1 (retainedStars out r) i p)) := by
  have hS0 : (retainedStars out 0).IDList.length = 0 := by simp [retainedStars, retained]
  have hD0 : (retainedDM out 0).IDList.length = 0 := by simp [retainedDM, retained]
  refine ⟨⟨?_, ?_, ?_⟩, ⟨?_, ?_, ?_⟩⟩
  · obtain ⟨evs, h1, h2⟩ := readBonsai_emits junk out r 0 s
    refine ⟨evs, h1, fun e he => ?_⟩
    rcases h2 e he with ⟨h, -⟩ | ⟨-, h⟩
    · exact absurd h (by decide)
    · exact isDMRead_not_stars e h
  · intro d s' h p hp
    rcases readBonsai_some_mem junk out r 0 s s' d h p hp with ⟨-, h2⟩ | ⟨h1, -⟩
    · omega
    · omega
  · intro hr hwf
    obtain ⟨w1, w2, w3, w4⟩ := wellFormed_retained 0 _ _ _ _ r hwf
    obtain ⟨d, s', h⟩ := readBonsai_total junk out r 0 s _ _ _ _
      (readBonsaiStars_off out s)
      (readBonsaiDM_wf out r (SpeciesData.unread R) s hr rfl rfl hwf)
      (Nat.le_refl _) (Nat.le_refl _) (Or.inl rfl) (fun x hx => by simp [SpeciesData.unread] at hx)
      (Nat.le_of_eq w1.symm) (Nat.le_of_eq w2.symm)
      (w3.imp id (fun h => Nat.le_of_eq h.symm)) w4
    obtain ⟨-, -, h3, -, h5⟩ := readBonsai_some junk out r 0 s s' d h
    refine ⟨d, s', h, by omega, fun j hj => ?_⟩
    have := h5 j hj
    rwa [hS0, Nat.zero_add] at this
  · obtain ⟨evs, h1, h2⟩ := readBonsai_emits junk out 0 r s
    refine ⟨evs, h1, fun e he => ?_⟩
    rcases h2 e he with ⟨-, h⟩ | ⟨h, -⟩
    · exact isStarsRead_not_dm e h
    · exact absurd h (by decide)
  · intro d s' h p hp
    rcases readBonsai_some_mem junk out 0 r s s' d h p hp with ⟨h1, -⟩ | ⟨-, h2⟩
    · omega
    · omega
  · intro hr hwf
    obtain ⟨w1, w2, w3, w4⟩ := wellFormed_retained 1 _ _ _ _ r hwf
    obtain ⟨d, s', h⟩ := readBonsai_total junk out 0 r s _ _ _ _
      (readBonsaiStars_wf out r s hr hwf)
      (readBonsaiDM_off out (retainedStars out r) _)
      (Nat.le_of_eq w1.symm) (Nat.le_of_eq w2.symm)
      (w3.imp id (fun h => Nat.le_of_eq h.symm)) w4
      (Nat.le_refl _) (Nat.le_refl _) (Or.inl rfl) (fun x hx => by simp [SpeciesData.unread] at hx)
    obtain ⟨-, -, h3, h4, -⟩ := readBonsai_some junk out 0 r s s' d h
    exact ⟨d, s', h, by omega, h4⟩

end Bonsai
